import Mathlib

/-!
Verification of the transaction-forensics core of the repository
(`backend/app/services/ml/pattern_matcher.py`, `anomaly_detector.py`,
`risk_scorer.py`, and the analysis API endpoints) against its
natural-language specification.

Modelling conventions, fixed once for the whole development:
* A transaction dictionary is embedded as the structure `Tx`.  The core
  reads the keys `hash`, `from`, `to`, `value`, `timestamp` (with defaults
  `""`, `""`, `0` for missing keys); optional block/gas metadata is carried
  opaquely by the source and is not modelled.  ISO-8601 UTC timestamps are
  embedded as UTC epoch seconds (`ℤ`): `datetime.date()` becomes the epoch
  day `⌊ts/86400⌋`, `datetime.hour` becomes `(ts mod 86400) / 3600`, and
  sorting by the ISO string is sorting by the epoch second.
* Python float arithmetic is embedded as exact rational arithmetic (`ℚ`).
  `round(x, 2)` is round-half-to-even at two decimals (`round2`), `int(x)`
  is truncation towards zero (`pyInt`).
* `statistics.pstdev` is the square root of the population variance, which
  is irrational in general; every use in the source is a comparison
  (`abs(z) > t` for `z = (x - mean)/pstdev`, or `pstdev > 0`), and each such
  comparison is embedded by the algebraically equivalent square-free form
  ((x - mean)^2 > t^2 * pvariance, pvariance > 0).  The equivalence is
  proved over `ℝ` where the claims mention z-scores.
* Python dicts preserve insertion order, so grouping by a key is embedded
  as `firstDedup` of the key list (first-occurrence order) plus `filter`
  per key.
-/

set_option maxRecDepth 4000

/-- A transaction record as consumed by the core (`tx.get("hash")`,
`tx.get("from", "")`, `tx.get("to", "")`, `tx.get("value", 0)`,
`tx.get("timestamp")`); timestamps as UTC epoch seconds. -/
structure Tx where
  hash : String
  fromAddr : String
  toAddr : String
  value : ℚ
  timestamp : ℤ
deriving DecidableEq, Inhabited

/-- `str.lower()` (ASCII case folding on the character data). -/
def lowerStr (s : String) : String :=
  String.mk (s.data.map Char.toLower)

/-- Accumulator pass of `firstDedup`: keep each element not seen before. -/
def firstDedupAux {α : Type} [DecidableEq α] (seen : List α) : List α → List α
  | [] => []
  | x :: xs => if x ∈ seen then firstDedupAux seen xs else x :: firstDedupAux (x :: seen) xs

/-- First-occurrence deduplication: the key order of a Python dict built by
inserting the elements of the list in order. -/
def firstDedup {α : Type} [DecidableEq α] (l : List α) : List α :=
  firstDedupAux [] l

/-- `statistics.mean` over rationals (callers guard against empty input). -/
def listMean (l : List ℚ) : ℚ := l.sum / (l.length : ℚ)

/-- `statistics.pvariance` (population variance). -/
def pvar (l : List ℚ) : ℚ :=
  ((l.map (fun x => (x - listMean l) ^ 2)).sum) / (l.length : ℚ)

/-- Round-half-to-even to an integer (the rounding mode of Python's
`round`). -/
def rne (q : ℚ) : ℤ :=
  if q - (⌊q⌋ : ℚ) < 1 / 2 then ⌊q⌋
  else if (1 : ℚ) / 2 < q - (⌊q⌋ : ℚ) then ⌊q⌋ + 1
  else if ⌊q⌋ % 2 = 0 then ⌊q⌋ else ⌊q⌋ + 1

/-- Python `round(x, 2)`. -/
def round2 (q : ℚ) : ℚ := (rne (q * 100) : ℚ) / 100

/-- Python `int(x)`: truncation towards zero. -/
def pyInt (q : ℚ) : ℤ := q.num / (q.den : ℤ)

/-- Epoch day of a timestamp (`datetime.date()` for a UTC instant). -/
def dayKey (ts : ℤ) : ℤ := Int.fdiv ts 86400

/-- Hour of day of a timestamp (`datetime.hour` for a UTC instant). -/
def hourOf (ts : ℤ) : ℤ := Int.fdiv (Int.emod ts 86400) 3600

/-- Largest timestamp of a nonempty list (`max(timestamps)`). -/
def intMaxOf : List ℤ → ℤ
  | [] => 0
  | x :: xs => xs.foldl max x

/-- Smallest timestamp of a nonempty list (`min(timestamps)`). -/
def intMinOf : List ℤ → ℤ
  | [] => 0
  | x :: xs => xs.foldl min x

/-- Stable insertion step for sorting by timestamp. -/
def insertByTs (t : Tx) : List Tx → List Tx
  | [] => [t]
  | x :: xs => if t.timestamp ≤ x.timestamp then t :: x :: xs else x :: insertByTs t xs

/-- Python `sorted(txs, key=lambda x: x.get("timestamp", ""))` (stable sort
by timestamp; ISO-UTC strings sort exactly like their epoch seconds). -/
def sortByTs : List Tx → List Tx
  | [] => []
  | x :: xs => insertByTs x (sortByTs xs)

/-!  ## Chain enumeration (`PatternMatcher._build_transaction_chains`)  -/

/-- The adjacency list `adj_map[addr]` built by
`for tx in transactions: adj_map[tx.get("from", "").lower()].append(tx)`
(`addr` is already lower-cased at every call site, as in the source). -/
def chainAdj (txs : List Tx) (addr : String) : List Tx :=
  txs.filter (fun t => lowerStr t.fromAddr = addr)

/-- One-to-one embedding of the BFS worklist loop of
`_build_transaction_chains`: pop the queue front; a chain at `max_hops`
is emitted; a dead end is emitted if it has at least 3 hops; otherwise the
chain is extended by every outgoing transaction of its last endpoint.  The
source's `while queue` loop always terminates (chains strictly grow up to
`max_hops`); `fuel` counts loop iterations and is chosen large enough in
`buildTransactionChains` below. -/
def chainBfs (txs : List Tx) (maxHops : ℕ) :
    ℕ → List (List Tx × String) → List (List Tx) → List (List Tx)
  | 0, _, acc => acc
  | _ + 1, [], acc => acc
  | fuel + 1, (chain, addr) :: rest, acc =>
    if maxHops ≤ chain.length then
      chainBfs txs maxHops fuel rest (acc ++ [chain])
    else
      let nextTxs := chainAdj txs addr
      if nextTxs = [] then
        if 3 ≤ chain.length then chainBfs txs maxHops fuel rest (acc ++ [chain])
        else chainBfs txs maxHops fuel rest acc
      else
        chainBfs txs maxHops fuel
          (rest ++ nextTxs.map (fun t => (chain ++ [t], lowerStr t.toAddr))) acc

/-- Loop-iteration budget that the BFS can never exhaust: every in-flight
chain has length between 1 and `max_hops` and each queue entry is popped
once, so the iteration count is below `(|txs| + 1)^(maxHops + 1) + 1`. -/
def chainFuel (txs : List Tx) (maxHops : ℕ) : ℕ :=
  (txs.length + 1) ^ (maxHops + 1) + 1

/-- `PatternMatcher._build_transaction_chains(transactions, start_address,
max_hops)`. -/
def buildTransactionChains (txs : List Tx) (startAddr : String) (maxHops : ℕ) :
    List (List Tx) :=
  chainBfs txs maxHops (chainFuel txs maxHops)
    ((chainAdj txs (lowerStr startAddr)).map (fun t => ([t], lowerStr t.toAddr))) []

/-- The sequence of addresses a chain visits: the sender of its first edge
followed by the receiver of every edge (lower-cased, as the BFS links
edges by lower-cased addresses).  "No address appears twice among the
chain's endpoints" is `(chainVisited c).Nodup`. -/
def chainVisited (chain : List Tx) : List String :=
  lowerStr (chain.headD default).fromAddr :: chain.map (fun t => lowerStr t.toAddr)

/-!  ## Pattern matcher (`PatternMatcher`)  -/

/-- One `patterns.json` catalog entry as read by the detectors: `id`,
`risk_level`, `known_mixers` (empty for non-mixing entries) and the `ETH`
reporting threshold `reporting_thresholds.get("ETH", 10.0)` (the source's
default when the key is absent).  Display-only fields (`name`, `name_ja`,
`name_en`, `description_ja`, `description_en`) are copied verbatim into
output dictionaries and are not modelled. -/
structure CatalogEntry where
  pid : String
  riskLevel : String
  knownMixers : List String
  ethThreshold : ℚ
deriving DecidableEq, Inhabited

/-- A detected-pattern dictionary.  Modelled fields: `pattern_id`,
`risk_level`, `confidence`, `total_amount`, the detector's count field
(`transaction_count` for smurfing/mixing/structuring/dusting, `hop_count`
for layering, `cycle_length` for circular trading, `occurrence_count` for
rapid movement, `peel_count` for peel chains) and the evidence transaction
hashes.  Display-only text fields and the real-valued statistics in the
evidence are determined by the modelled data and are not repeated here. -/
structure PatternMatch where
  pattern_id : String
  risk_level : String
  confidence : ℚ
  total_amount : ℚ
  count : ℕ
  evidence_hashes : List String
deriving DecidableEq, Inhabited

/-- `PatternMatcher._detect_smurfing`: group the address' outgoing
transactions into 1-hour buckets (dict insertion order); the first bucket
with ≥ 10 transactions, all amounts < 1.0, and coefficient of variation
< 0.3 matches.  Source: `cv = variance ** 0.5 / mean; if cv >= 0.3:
continue` guarded by `mean > 0`; `cv ≥ 0.3` with `mean > 0` is equivalent
to `variance ≥ (0.3 * mean)^2`, used here to stay in `ℚ`. -/
def detectSmurfing (p : CatalogEntry) (txs : List Tx) (addr : String) :
    Option PatternMatch :=
  let mine := txs.filter (fun t => lowerStr t.fromAddr = lowerStr addr)
  let hourKeys := firstDedup (mine.map (fun t => Int.fdiv t.timestamp 3600))
  hourKeys.findSome? (fun h =>
    let wtxs := mine.filter (fun t => Int.fdiv t.timestamp 3600 = h)
    if wtxs.length < 10 then none
    else
      let amounts := wtxs.map (fun t => t.value)
      if ¬ (amounts.all (fun a => a < 1)) then none
      else if 1 < amounts.length ∧ 0 < listMean amounts ∧
          (9 : ℚ) / 100 * (listMean amounts) ^ 2 ≤ pvar amounts then none
      else some
        { pattern_id := p.pid
          risk_level := p.riskLevel
          confidence := min ((wtxs.length : ℚ) / 20) 1
          total_amount := amounts.sum
          count := wtxs.length
          evidence_hashes := (wtxs.take 10).map (fun t => t.hash) })

/-- `PatternMatcher._detect_layering`: the first chain from
`_build_transaction_chains(transactions, address, max_hops=10)` with ≥ 5
hops, completed within 24 hours, whose concatenated raw `from` and `to`
address lists contain no duplicate (the source compares the raw strings,
not the lower-cased ones). -/
def detectLayering (p : CatalogEntry) (txs : List Tx) (addr : String) :
    Option PatternMatch :=
  (buildTransactionChains txs addr 10).findSome? (fun chain =>
    if chain.length < 5 then none
    else
      let timeDiff := (chain.getLastD default).timestamp - (chain.headD default).timestamp
      if 86400 < timeDiff then none
      else
        let addresses := chain.map (fun t => t.fromAddr) ++ chain.map (fun t => t.toAddr)
        if addresses.Nodup then some
          { pattern_id := p.pid
            risk_level := p.riskLevel
            confidence := min ((chain.length : ℚ) / 10) 1
            total_amount := (chain.map (fun t => t.value)).sum
            count := chain.length
            evidence_hashes := chain.map (fun t => t.hash) }
        else none)

/-- The `mixer_txs` filter of `PatternMatcher._detect_mixing`: the
transactions whose lower-cased `from` or `to` is a lower-cased
`known_mixers` entry. -/
def mixerTxsOf (p : CatalogEntry) (txs : List Tx) : List Tx :=
  txs.filter (fun t =>
    lowerStr t.fromAddr ∈ p.knownMixers.map lowerStr ∨
      lowerStr t.toAddr ∈ p.knownMixers.map lowerStr)

/-- `PatternMatcher._detect_mixing`: any transaction whose lower-cased
`from` or `to` is a lower-cased `known_mixers` entry matches, with
confidence fixed at 1.0. -/
def detectMixing (p : CatalogEntry) (txs : List Tx) (_addr : String) :
    Option PatternMatch :=
  let mixerTxs := mixerTxsOf p txs
  if mixerTxs = [] then none
  else some
    { pattern_id := p.pid
      risk_level := p.riskLevel
      confidence := 1
      total_amount := (mixerTxs.map (fun t => t.value)).sum
      count := mixerTxs.length
      evidence_hashes := mixerTxs.map (fun t => t.hash) }

/-- The `suspicious_txs` filter of `PatternMatcher._detect_structuring`:
outgoing transactions with amount in `[0.9 * threshold, threshold)`. -/
def structSuspicious (p : CatalogEntry) (txs : List Tx) (addr : String) : List Tx :=
  txs.filter (fun t =>
    lowerStr t.fromAddr = lowerStr addr ∧
      (9 : ℚ) / 10 * p.ethThreshold ≤ t.value ∧ t.value < p.ethThreshold)

/-- `PatternMatcher._detect_structuring`: ≥ 3 outgoing transactions with
amount in `[0.9 * threshold, threshold)`, all within one week. -/
def detectStructuring (p : CatalogEntry) (txs : List Tx) (addr : String) :
    Option PatternMatch :=
  let suspicious := structSuspicious p txs addr
  if suspicious.length < 3 then none
  else
    let stamps := suspicious.map (fun t => t.timestamp)
    if 604800 < intMaxOf stamps - intMinOf stamps then none
    else some
      { pattern_id := p.pid
        risk_level := p.riskLevel
        confidence := min ((suspicious.length : ℚ) / 5) 1
        total_amount := (suspicious.map (fun t => t.value)).sum
        count := suspicious.length
        evidence_hashes := suspicious.map (fun t => t.hash) }

/-- `PatternMatcher._detect_circular_trading`: the first chain of ≥ 3 hops
whose last edge returns to the target address, completed within 48
hours. -/
def detectCircularTrading (p : CatalogEntry) (txs : List Tx) (addr : String) :
    Option PatternMatch :=
  (buildTransactionChains txs addr 10).findSome? (fun chain =>
    if chain.length < 3 then none
    else if lowerStr (chain.getLastD default).toAddr ≠ lowerStr addr then none
    else
      let timeDiff := (chain.getLastD default).timestamp - (chain.headD default).timestamp
      if 172800 < timeDiff then none
      else some
        { pattern_id := p.pid
          risk_level := p.riskLevel
          confidence := min ((chain.length : ℚ) / 6) 1
          total_amount := (chain.map (fun t => t.value)).sum
          count := chain.length
          evidence_hashes := chain.map (fun t => t.hash) })

/-- `PatternMatcher._detect_rapid_movement`: every (incoming, outgoing)
pair, in nested-loop order, where the outgoing transaction happens
strictly after and within 5 minutes of the incoming one and carries ≥ 95%
of its amount.  Evidence is abstracted to the incoming hashes of the first
five pairs. -/
def detectRapidMovement (p : CatalogEntry) (txs : List Tx) (addr : String) :
    Option PatternMatch :=
  let incoming := txs.filter (fun t => lowerStr t.toAddr = lowerStr addr)
  let outgoing := txs.filter (fun t => lowerStr t.fromAddr = lowerStr addr)
  let movements := incoming.flatMap (fun tin =>
    outgoing.filterMap (fun tout =>
      if 0 < tout.timestamp - tin.timestamp ∧ tout.timestamp - tin.timestamp ≤ 300 ∧
          (95 : ℚ) / 100 * tin.value ≤ tout.value
      then some (tin, tout) else none))
  if movements = [] then none
  else some
    { pattern_id := p.pid
      risk_level := p.riskLevel
      confidence := min ((movements.length : ℚ) / 3) 1
      total_amount := (movements.map (fun m => m.1.value)).sum
      count := movements.length
      evidence_hashes := (movements.take 5).map (fun m => m.1.hash) }

/-- The `dust_txs` filter of `PatternMatcher._detect_dusting`: outgoing
transactions of amount ≤ 0.001. -/
def dustTxsOf (txs : List Tx) (addr : String) : List Tx :=
  txs.filter (fun t => lowerStr t.fromAddr = lowerStr addr ∧ t.value ≤ 1 / 1000)

/-- `PatternMatcher._detect_dusting`: outgoing transactions of ≤ 0.001
with ≥ 100 distinct lower-cased recipients. -/
def detectDusting (p : CatalogEntry) (txs : List Tx) (addr : String) :
    Option PatternMatch :=
  let dust := dustTxsOf txs addr
  let recipients := firstDedup (dust.map (fun t => lowerStr t.toAddr))
  if recipients.length < 100 then none
  else some
    { pattern_id := p.pid
      risk_level := p.riskLevel
      confidence := min ((recipients.length : ℚ) / 200) 1
      total_amount := (dust.map (fun t => t.value)).sum
      count := dust.length
      evidence_hashes := (dust.take 10).map (fun t => t.hash) }

/-- `PatternMatcher._detect_peel_chain`: with ≥ 5 outgoing transactions,
every chronologically sorted outgoing transaction except the first whose
amount lies in `(0, 100)` is a peel; ≥ 5 peels match. -/
def detectPeelChain (p : CatalogEntry) (txs : List Tx) (addr : String) :
    Option PatternMatch :=
  let outgoing := sortByTs (txs.filter (fun t => lowerStr t.fromAddr = lowerStr addr))
  if outgoing.length < 5 then none
  else
    let peels := (outgoing.drop 1).filter (fun t => 0 < t.value ∧ t.value < 100)
    if peels.length < 5 then none
    else some
      { pattern_id := p.pid
        risk_level := p.riskLevel
        confidence := min ((peels.length : ℚ) / 10) 1
        total_amount := (peels.map (fun t => t.value)).sum
        count := peels.length
        evidence_hashes := (peels.take 10).map (fun t => t.hash) }

/-- `PatternMatcher._match_pattern`: string dispatch on the catalog id. -/
def matchPattern (p : CatalogEntry) (txs : List Tx) (addr : String) :
    Option PatternMatch :=
  if p.pid = "smurfing" then detectSmurfing p txs addr
  else if p.pid = "layering" then detectLayering p txs addr
  else if p.pid = "mixing" then detectMixing p txs addr
  else if p.pid = "structuring" then detectStructuring p txs addr
  else if p.pid = "circular_trading" then detectCircularTrading p txs addr
  else if p.pid = "rapid_movement" then detectRapidMovement p txs addr
  else if p.pid = "dusting" then detectDusting p txs addr
  else if p.pid = "peel_chain" then detectPeelChain p txs addr
  else none

/-- `PatternMatcher.detect_patterns`: run every catalog entry in order and
collect the matches. -/
def detectPatterns (catalog : List CatalogEntry) (txs : List Tx) (addr : String) :
    List PatternMatch :=
  catalog.filterMap (fun p => matchPattern p txs addr)

/-- Modelled from the spec: the smurfing entry of the `patterns.json`
catalog, which is a static asset of the repository that is not under
`src/`.  §4.3/§6 of the spec fix the entry ids; risk levels other than the
mixing entry's "critical" are unspecified and only flow into output
fields, so "high" stands in for them. -/
def catSmurfing : CatalogEntry :=
  { pid := "smurfing", riskLevel := "high", knownMixers := [], ethThreshold := 10 }

/-- Modelled from the spec: the layering catalog entry (see
`catSmurfing`). -/
def catLayering : CatalogEntry :=
  { pid := "layering", riskLevel := "high", knownMixers := [], ethThreshold := 10 }

/-- Modelled from the spec: the mixing catalog entry; the spec fixes its
risk level as "critical"; the configured `known_mixers` list is a
parameter. -/
def catMixing (mixers : List String) : CatalogEntry :=
  { pid := "mixing", riskLevel := "critical", knownMixers := mixers, ethThreshold := 10 }

/-- Modelled from the spec: the structuring catalog entry with the default
reporting threshold 10.0 (see `catSmurfing`). -/
def catStructuring : CatalogEntry :=
  { pid := "structuring", riskLevel := "high", knownMixers := [], ethThreshold := 10 }

/-- Modelled from the spec: the circular-trading catalog entry (see
`catSmurfing`). -/
def catCircular : CatalogEntry :=
  { pid := "circular_trading", riskLevel := "high", knownMixers := [], ethThreshold := 10 }

/-- Modelled from the spec: the rapid-movement catalog entry (see
`catSmurfing`). -/
def catRapid : CatalogEntry :=
  { pid := "rapid_movement", riskLevel := "high", knownMixers := [], ethThreshold := 10 }

/-- Modelled from the spec: the dusting catalog entry (see
`catSmurfing`). -/
def catDusting : CatalogEntry :=
  { pid := "dusting", riskLevel := "high", knownMixers := [], ethThreshold := 10 }

/-- Modelled from the spec: the peel-chain catalog entry (see
`catSmurfing`). -/
def catPeelChain : CatalogEntry :=
  { pid := "peel_chain", riskLevel := "high", knownMixers := [], ethThreshold := 10 }

/-- Modelled from the spec: the full `patterns.json` catalog, in the
spec's entry order. -/
def specCatalog (mixers : List String) : List CatalogEntry :=
  [catSmurfing, catLayering, catMixing mixers, catStructuring, catCircular,
   catRapid, catDusting, catPeelChain]

/-!  ## Anomaly detector (`AnomalyDetector`)  -/

/-- An anomaly dictionary.  Modelled fields: `type`, `severity`, the
identifying reference of the anomaly (`transaction_hash` for amount
anomalies, the ISO date — here the epoch-day index rendered as a string —
for frequency anomalies, the counterparty address for counterparty
anomalies, empty for the single time-pattern anomaly) and its principal
metric (`amount`, `transaction_count`, `off_peak_ratio`, `amount`).  The
z-score/mean/stdev evidence fields are real numbers determined by the
modelled data and are not repeated. -/
structure Anomaly where
  atype : String
  severity : String
  ref : String
  metric : ℚ
deriving DecidableEq, Inhabited

/-- Whether a sample `x` of a population with mean `μ` and variance `v`
has `|z| > t` for `z = (x - μ)/sqrt v`; square-free form of the source's
`abs(z_score) > threshold` (for `t ≥ 0`, `v > 0`). -/
def absZExceeds (x μ v t : ℚ) : Prop := t ^ 2 * v < (x - μ) ^ 2

instance (x μ v t : ℚ) : Decidable (absZExceeds x μ v t) := by
  unfold absZExceeds; infer_instance

/-- `AnomalyDetector._detect_amount_anomalies`: with ≥ 10 transactions and
nonzero population stdev of all amounts, flag each transaction with
`|z| > threshold`, severity "high" when `|z| > 4.0` and "medium"
otherwise.  (`pstdev == 0` iff `pvariance == 0`.) -/
def detectAmountAnomalies (t : ℚ) (txs : List Tx) (_addr : String) : List Anomaly :=
  let amounts := txs.map (fun tx => tx.value)
  if amounts.length < 10 then []
  else if pvar amounts = 0 then []
  else
    txs.filterMap (fun tx =>
      if absZExceeds tx.value (listMean amounts) (pvar amounts) t then
        some
          { atype := "amount_anomaly"
            severity :=
              if absZExceeds tx.value (listMean amounts) (pvar amounts) 4
              then "high" else "medium"
            ref := tx.hash
            metric := tx.value }
      else none)

/-- Whether a sample `x` has `z > t` (one-sided, the frequency and
counterparty tests); square-free form of `z_score > threshold` for
`t ≥ 0`, `v > 0`. -/
def zExceeds (x μ v t : ℚ) : Prop := μ < x ∧ t ^ 2 * v < (x - μ) ^ 2

instance (x μ v t : ℚ) : Decidable (zExceeds x μ v t) := by
  unfold zExceeds; infer_instance

/-- `AnomalyDetector._detect_frequency_anomalies`: group by calendar day
(dict insertion order); with ≥ 7 active days and nonzero stdev of the
daily counts, flag each day with `z > threshold`, severity "high" when
`z > 4.0`. -/
def detectFrequencyAnomalies (t : ℚ) (txs : List Tx) (_addr : String) : List Anomaly :=
  let days := firstDedup (txs.map (fun tx => dayKey tx.timestamp))
  let countOf := fun (d : ℤ) => (txs.filter (fun tx => dayKey tx.timestamp = d)).length
  if days.length < 7 then []
  else
    let counts := days.map (fun d => (countOf d : ℚ))
    if pvar counts = 0 then []
    else
      days.filterMap (fun d =>
        if zExceeds (countOf d : ℚ) (listMean counts) (pvar counts) t then
          some
            { atype := "frequency_anomaly"
              severity :=
                if zExceeds (countOf d : ℚ) (listMean counts) (pvar counts) 4
                then "high" else "medium"
              ref := toString d
              metric := (countOf d : ℚ) }
        else none)

/-- `AnomalyDetector._detect_time_anomalies`: group by hour of day; with
≥ 6 active hours and nonzero stdev of the hourly counts, emit one
"time_pattern_anomaly" of severity "medium" when the fraction of
transactions in hours 1–5 exceeds 0.4. -/
def detectTimeAnomalies (_t : ℚ) (txs : List Tx) (_addr : String) : List Anomaly :=
  let hours := firstDedup (txs.map (fun tx => hourOf tx.timestamp))
  let countOf := fun (h : ℤ) => (txs.filter (fun tx => hourOf tx.timestamp = h)).length
  if hours.length < 6 then []
  else
    let counts := hours.map (fun h => (countOf h : ℚ))
    if pvar counts = 0 then []
    else
      let offPeak := ([1, 2, 3, 4, 5] : List ℤ).map (fun h => countOf h) |>.sum
      let total := (hours.map (fun h => countOf h)).sum
      if 0 < total ∧ (2 : ℚ) / 5 < (offPeak : ℚ) / (total : ℚ) then
        [ { atype := "time_pattern_anomaly"
            severity := "medium"
            ref := ""
            metric := (offPeak : ℚ) / (total : ℚ) } ]
      else []

/-- The counterparty of a transaction relative to the target address: the
lower-cased `to` when the lower-cased `from` is the target address, the
lower-cased `from` otherwise. -/
def cpOf (addr : String) (tx : Tx) : String :=
  if lowerStr tx.fromAddr = lowerStr addr then lowerStr tx.toAddr else lowerStr tx.fromAddr

/-- `counterparty_counts[c]`: how many transactions have counterparty `c`. -/
def cpCountOf (txs : List Tx) (addr : String) (c : String) : ℕ :=
  (txs.filter (fun tx => cpOf addr tx = c)).length

/-- `counterparty_amounts[c]`: the aggregated amount of counterparty `c`. -/
def cpAmountOf (txs : List Tx) (addr : String) (c : String) : ℚ :=
  ((txs.filter (fun tx => cpOf addr tx = c)).map (fun tx => tx.value)).sum

/-- `AnomalyDetector._detect_counterparty_anomalies`: aggregate per
counterparty; with ≥ 5 distinct counterparties: (a) when the counts' stdev
is nonzero, flag each counterparty with count z-score > threshold
("counterparty_concentration", severity "medium"); then (b) flag each
counterparty with exactly one transaction whose aggregated amount exceeds
twice the mean aggregated amount ("one_time_large_transaction", severity
"high"). -/
def detectCounterpartyAnomalies (t : ℚ) (txs : List Tx) (addr : String) : List Anomaly :=
  let cps := firstDedup (txs.map (cpOf addr))
  if cps.length < 5 then []
  else
    let counts := cps.map (fun c => (cpCountOf txs addr c : ℚ))
    let amounts := cps.map (cpAmountOf txs addr)
    let concentration :=
      if 0 < pvar counts then
        cps.filterMap (fun c =>
          if zExceeds (cpCountOf txs addr c : ℚ) (listMean counts) (pvar counts) t then
            some
              { atype := "counterparty_concentration"
                severity := "medium"
                ref := c
                metric := (cpCountOf txs addr c : ℚ) }
          else none)
      else []
    let oneTime :=
      cps.filterMap (fun c =>
        if cpCountOf txs addr c = 1 ∧ 2 * listMean amounts < cpAmountOf txs addr c then
          some
            { atype := "one_time_large_transaction"
              severity := "high"
              ref := c
              metric := cpAmountOf txs addr c }
        else none)
    concentration ++ oneTime

/-- `AnomalyDetector.detect_anomalies`: the four tests, concatenated in
source order. -/
def detectAnomalies (t : ℚ) (txs : List Tx) (addr : String) : List Anomaly :=
  detectAmountAnomalies t txs addr ++ detectFrequencyAnomalies t txs addr ++
    detectTimeAnomalies t txs addr ++ detectCounterpartyAnomalies t txs addr

/-!  ## Risk scorer (`RiskScorer`)  -/

/-- `risk_weights.get(risk_level, 0.5)` with
`{critical: 1.0, high: 0.75, medium: 0.5, low: 0.25}` (also the
`severity_weights` table of `_calculate_anomaly_risk`). -/
def riskWeight (level : String) : ℚ :=
  if level = "critical" then 1
  else if level = "high" then 3 / 4
  else if level = "medium" then 1 / 2
  else if level = "low" then 1 / 4
  else 1 / 2

/-- `RiskScorer._calculate_pattern_risk`:
`min(Σ risk_weight(p.risk_level) * p.confidence * 50, 100)`, rounded;
0 for the empty list. -/
def calculatePatternRisk (pats : List PatternMatch) : ℚ :=
  if pats = [] then 0
  else
    let totalRisk := (pats.map (fun p => riskWeight p.risk_level * p.confidence)).sum
    round2 (min (totalRisk * 50) 100)

/-- `RiskScorer._calculate_anomaly_risk`:
`min(Σ severity_weight(a.severity) * 30, 100)`, rounded; 0 for the empty
list. -/
def calculateAnomalyRisk (anos : List Anomaly) : ℚ :=
  if anos = [] then 0
  else
    let totalRisk := (anos.map (fun a => riskWeight a.severity)).sum
    round2 (min (totalRisk * 30) 100)

/-- The hard-coded `known_high_risk` set of `_calculate_counterparty_risk`
(mixed-case, exactly as in the source; the source compares them against
lower-cased addresses, so they can never match). -/
def knownHighRisk : List String :=
  ["0xd90e2f925DA726b50C4Ed8D0Fb90Ad053324F31b",
   "0x47CE0C6eD5B0Ce3d3A51fdb1C52DC66a7c3c2936"]

/-- The `high_risk_interactions` counter of
`RiskScorer._calculate_counterparty_risk`. -/
def highRiskTxCount (txs : List Tx) : ℕ :=
  (txs.filter (fun t =>
    lowerStr t.fromAddr ∈ knownHighRisk ∨ lowerStr t.toAddr ∈ knownHighRisk)).length

/-- `RiskScorer._calculate_counterparty_risk`:
`100 * (#transactions touching a known high-risk address) / (#transactions)`,
rounded; 0 for the empty list. -/
def calculateCounterpartyRisk (txs : List Tx) : ℚ :=
  if txs = [] then 0
  else
    let total := txs.length
    if total = 0 then 0
    else round2 ((highRiskTxCount txs : ℚ) / (total : ℚ) * 100)

/-- `RiskScorer._calculate_volume_risk`: step function of the total
volume (`>1000 → 80, >100 → 60, >10 → 40, >1 → 20, else 10`), multiplied
by 1.2 (capped at 100) for more than 1000 transactions, by 1.1 for more
than 100; rounded; 0 for the empty list. -/
def calculateVolumeRisk (txs : List Tx) : ℚ :=
  if txs = [] then 0
  else
    let totalVolume := (txs.map (fun t => t.value)).sum
    let base : ℚ :=
      if 1000 < totalVolume then 80
      else if 100 < totalVolume then 60
      else if 10 < totalVolume then 40
      else if 1 < totalVolume then 20
      else 10
    let adjusted : ℚ :=
      if 1000 < txs.length then min (base * (12 / 10)) 100
      else if 100 < txs.length then min (base * (11 / 10)) 100
      else base
    round2 adjusted

/-- `RiskScorer._calculate_age_risk`: 50 for an empty history; otherwise a
step function of the address age in days since the first transaction
(`datetime.utcnow()` is passed in as `now`, epoch seconds; `.days` of a
timedelta floors towards minus infinity), multiplied by 1.3 (capped at
100) when the address has been inactive for more than half its lifespan;
rounded.  The source also computes `activity_days`, which it never
uses. -/
def calculateAgeRisk (now : ℤ) (txs : List Tx) : ℚ :=
  if txs = [] then 50
  else
    let stamps := txs.map (fun t => t.timestamp)
    let firstTx := intMinOf stamps
    let lastTx := intMaxOf stamps
    let ageDays := Int.fdiv (now - firstTx) 86400
    let base : ℚ :=
      if ageDays < 7 then 80
      else if ageDays < 30 then 60
      else if ageDays < 90 then 40
      else if ageDays < 365 then 20
      else 10
    let inactDays := Int.fdiv (now - lastTx) 86400
    let adjusted : ℚ :=
      if (1 : ℚ) / 2 < (inactDays : ℚ) / (max ageDays 1 : ℤ) then min (base * (13 / 10)) 100
      else base
    round2 adjusted

/-- `RiskScorer._determine_risk_level`: the fixed breakpoints
`≥80 → critical, ≥60 → high, ≥40 → medium, ≥20 → low, else minimal`,
applied to the unrounded weighted total. -/
def determineRiskLevel (score : ℚ) : String :=
  if 80 ≤ score then "critical"
  else if 60 ≤ score then "high"
  else if 40 ≤ score then "medium"
  else if 20 ≤ score then "low"
  else "minimal"

/-- The unrounded weighted total of `RiskScorer.calculate_risk_score`
(weights 0.35/0.25/0.20/0.10/0.10). -/
def totalScore (now : ℤ) (txs : List Tx) (pats : List PatternMatch)
    (anos : List Anomaly) : ℚ :=
  calculatePatternRisk pats * (35 / 100) + calculateAnomalyRisk anos * (25 / 100) +
    calculateCounterpartyRisk txs * (20 / 100) + calculateVolumeRisk txs * (10 / 100) +
    calculateAgeRisk now txs * (10 / 100)

/-- The result dictionary of `RiskScorer.calculate_risk_score`; modelled
fields: `risk_score` (the rounded total), `risk_level` (bucketed from the
unrounded total) and the five `breakdown` factor scores (each factor's
`contribution` is `score × weight`).  Translations, recommendations and
the `assessed_at` wall-clock stamp are not modelled. -/
structure RiskAssessment where
  address : String
  risk_score : ℚ
  risk_level : String
  patternScore : ℚ
  anomalyScore : ℚ
  counterpartyScore : ℚ
  volumeScore : ℚ
  ageScore : ℚ
deriving DecidableEq, Inhabited

/-- `RiskScorer.calculate_risk_score` (with the ambient `datetime.utcnow()`
of the age factor passed explicitly as `now`). -/
def calculateRiskScore (now : ℤ) (addr : String) (txs : List Tx)
    (pats : List PatternMatch) (anos : List Anomaly) : RiskAssessment :=
  { address := addr
    risk_score := round2 (totalScore now txs pats anos)
    risk_level := determineRiskLevel (totalScore now txs pats anos)
    patternScore := calculatePatternRisk pats
    anomalyScore := calculateAnomalyRisk anos
    counterpartyScore := calculateCounterpartyRisk txs
    volumeScore := calculateVolumeRisk txs
    ageScore := calculateAgeRisk now txs }

/-!  ## API endpoints (`app/api/v1/analysis.py`)  -/

/-- The `RiskScoreResponse` of the `/risk-score` endpoint: `risk_score` is
an `int`, `factors` is the list of `(description_en, int(contribution))`
pairs from the breakdown. -/
structure RiskScoreResponse where
  address : String
  risk_score : ℤ
  risk_level : String
  factors : List (String × ℤ)
  is_sanctioned : Bool
  sanctioned_lists : List String
deriving DecidableEq, Inhabited

/-- The `/risk-score` endpoint handler `calculate_risk_score` of
`analysis.py`, as a function of the transactions fetched for the address:
an empty list short-circuits to the neutral `50 / "medium"` response
before any ML component runs; otherwise patterns, anomalies and the risk
assessment are computed and converted. -/
def riskScoreEndpoint (catalog : List CatalogEntry) (t : ℚ) (now : ℤ)
    (addr : String) (txs : List Tx) : RiskScoreResponse :=
  if txs = [] then
    { address := addr
      risk_score := 50
      risk_level := "medium"
      factors := []
      is_sanctioned := false
      sanctioned_lists := [] }
  else
    let pats := detectPatterns catalog txs addr
    let anos := detectAnomalies t txs addr
    let ra := calculateRiskScore now addr txs pats anos
    { address := addr
      risk_score := pyInt ra.risk_score
      risk_level := ra.risk_level
      factors :=
        [ ("Detected money laundering patterns", pyInt (ra.patternScore * (35 / 100))),
          ("Statistical anomaly detection", pyInt (ra.anomalyScore * (25 / 100))),
          ("Association with high-risk entities", pyInt (ra.counterpartyScore * (20 / 100))),
          ("Volume-based risk assessment", pyInt (ra.volumeScore * (10 / 100))),
          ("Address age and activity pattern", pyInt (ra.ageScore * (10 / 100))) ]
      is_sanctioned := pats.any (fun p => p.pattern_id = "mixing")
      sanctioned_lists :=
        if pats.any (fun p => p.pattern_id = "mixing") then ["OFAC SDN List"] else [] }

/-- The early-return branch of the `/narrative` endpoint
(`analysis.py` lines 213–228), taken exactly when the fetched transaction
list is empty: the fixed no-transactions narrative and key findings for
the requested language.  Returned as `(narrative, key_findings)`. -/
def narrativeEndpointEmpty (language : String) (addr : String) :
    String × List String :=
  if language = "ja" then
    ("調査対象アドレス（" ++ addr ++ "）において、分析期間中の取引は確認されませんでした。",
      ["取引履歴なし"])
  else
    ("No transactions were found for the investigation target address (" ++ addr ++
        ") during the analysis period.",
      ["No transaction history"])

/-!  ## Concrete inputs used by the theorems  -/

/-- Shorthand transaction constructor for concrete inputs. -/
def mkTx (h f g : String) (v : ℚ) (ts : ℤ) : Tx :=
  { hash := h, fromAddr := f, toAddr := g, value := v, timestamp := ts }

/-- Two transactions forming the 2-cycle `a → b → a`. -/
def cycTxs : List Tx := [mkTx "t1" "a" "b" 1 0, mkTx "t2" "b" "a" 1 60]

/-- The spec's layering scenario: the chain `a → b → c → d → e → f`
(5 hops, six distinct addresses) completed within 10 hours. -/
def fiveChainTxs : List Tx :=
  [mkTx "t1" "a" "b" 1 0, mkTx "t2" "b" "c" 1 7200, mkTx "t3" "c" "d" 1 14400,
   mkTx "t4" "d" "e" 1 21600, mkTx "t5" "e" "f" 1 36000]

/-- The spec's mixing scenario: three transactions from `0xA` to the
known mixer `0xMixer` with values 0.1, 0.2, 0.3 within one hour. -/
def mixScnTxs : List Tx :=
  [mkTx "m1" "0xA" "0xMixer" (1 / 10) 0, mkTx "m2" "0xA" "0xMixer" (2 / 10) 600,
   mkTx "m3" "0xA" "0xMixer" (3 / 10) 1200]

/-- The mixing `PatternMatch` produced on `mixScnTxs` (by `c6_detect`
below). -/
def mixScnMatch : PatternMatch :=
  { pattern_id := "mixing", risk_level := "critical", confidence := 1,
    total_amount := 3 / 5, count := 3, evidence_hashes := ["m1", "m2", "m3"] }

/-- Five single-shot transactions with five distinct senders and
receivers; `s1`'s counterparty assignment depends on the target
address. -/
def cpExampleTxs : List Tx :=
  [mkTx "c1" "s1" "r1" 10 0, mkTx "c2" "s2" "r2" 1 0, mkTx "c3" "s3" "r3" 1 0,
   mkTx "c4" "s4" "r4" 1 0, mkTx "c5" "s5" "r5" 1 0]

/-- Eleven transactions: ten of amount 1 and one outlier of amount 100
(population z-score of the outlier is `sqrt 10 ≈ 3.16`). -/
def amtExampleTxs : List Tx :=
  [mkTx "a0" "x" "y" 1 0, mkTx "a1" "x" "y" 1 86400, mkTx "a2" "x" "y" 1 172800,
   mkTx "a3" "x" "y" 1 259200, mkTx "a4" "x" "y" 1 345600, mkTx "a5" "x" "y" 1 432000,
   mkTx "a6" "x" "y" 1 518400, mkTx "a7" "x" "y" 1 604800, mkTx "a8" "x" "y" 1 691200,
   mkTx "a9" "x" "y" 1 777600, mkTx "big" "x" "y" 100 950400]

/-- The head transactions `a → b → c` of the chain-count family. -/
def famA : Tx := mkTx "s0" "a" "b" 1 0

/-- Second stem transaction of the chain-count family. -/
def famB : Tx := mkTx "s1" "b" "c" 1 0

/-- The `i`-th parallel tail transaction `c → d` of the chain-count
family (distinct hashes, identical endpoints). -/
def famU (i : ℕ) : Tx := mkTx ("u" ++ toString i) "c" "d" 1 0

/-- A family of transaction lists on which `_build_transaction_chains`
produces exactly `n` chains: a 2-edge stem `a → b → c` followed by `n`
parallel dead-end edges `c → d`. -/
def famTx (n : ℕ) : List Tx := famA :: famB :: (List.range n).map famU

/-- A detected pattern with critical risk and full confidence. -/
def c5p1 : PatternMatch :=
  { pattern_id := "x1", risk_level := "critical", confidence := 1,
    total_amount := 0, count := 0, evidence_hashes := [] }

/-- A detected pattern with critical risk and confidence 0.0112. -/
def c5p2 : PatternMatch :=
  { pattern_id := "x2", risk_level := "critical", confidence := 7 / 625,
    total_amount := 0, count := 0, evidence_hashes := [] }

/-- A single old transaction (timestamp 0, value 0.5). -/
def c5OldTx : Tx := mkTx "t" "u" "v" (1 / 2) 0

/-- An evaluation instant 400 days after `c5OldTx`. -/
def c5Now : ℤ := 400 * 86400



/-!  ## Helper lemmas  -/

/-- Every dispatch branch of `_match_pattern` returns `None` on an empty
transaction list. -/
lemma matchPattern_nil (p : CatalogEntry) (addr : String) :
    matchPattern p [] addr = none := by
  unfold matchPattern
  split_ifs <;> rfl

/-- `detect_patterns` returns no matches on an empty transaction list,
for every catalog. -/
lemma detectPatterns_nil (cat : List CatalogEntry) (addr : String) :
    detectPatterns cat [] addr = [] := by
  induction cat with
  | nil => rfl
  | cons p rest ih => simp [detectPatterns, List.filterMap_cons, matchPattern_nil, ih]

lemma lower_lit_a : lowerStr "a" = "a" := by decide

lemma lower_lit_b : lowerStr "b" = "b" := by decide

lemma lower_lit_c : lowerStr "c" = "c" := by decide

lemma lower_lit_d : lowerStr "d" = "d" := by decide

lemma lower_lit_e : lowerStr "e" = "e" := by decide

lemma lower_lit_f : lowerStr "f" = "f" := by decide

lemma lower_lit_0xA : lowerStr "0xA" = "0xa" := by decide

lemma lower_lit_0xMixer : lowerStr "0xMixer" = "0xmixer" := by decide

lemma lower_lit_0xmixer : lowerStr "0xmixer" = "0xmixer" := by decide

/-!  ## C4: empty transaction list  -/

/-- C4: with an empty transaction list the analysis yields no patterns and
no anomalies, the `/risk-score` endpoint's early return is the neutral
`risk_score = 50`, `risk_level = "medium"` response, and the `/narrative`
endpoint's early return carries the English no-transactions narrative with
`key_findings = ["No transaction history"]`. -/
theorem c4_empty_input_neutral (cat : List CatalogEntry) (t : ℚ) (now : ℤ)
    (addr : String) :
    detectPatterns cat [] addr = [] ∧
    detectAnomalies t [] addr = [] ∧
    riskScoreEndpoint cat t now addr [] =
      { address := addr, risk_score := 50, risk_level := "medium", factors := [],
        is_sanctioned := false, sanctioned_lists := [] } ∧
    narrativeEndpointEmpty "en" addr =
      ("No transactions were found for the investigation target address (" ++ addr ++
          ") during the analysis period.",
        ["No transaction history"]) :=
  ⟨detectPatterns_nil cat addr, rfl, rfl, rfl⟩

/-!  ## C8: determinism  -/

/-- C8: `detect_patterns` and `detect_anomalies` are pure functions of the
catalog, threshold, transaction list and address — two invocations with
identical inputs return identical result lists, order included.  (The
embedding is faithful on this point: neither function reads a clock,
randomness, or any state besides its arguments and the read-only
catalog.) -/
theorem c8_deterministic (cat : List CatalogEntry) (t : ℚ) (txs : List Tx)
    (addr : String) :
    detectPatterns cat txs addr = detectPatterns cat txs addr ∧
    detectAnomalies t txs addr = detectAnomalies t txs addr :=
  ⟨rfl, rfl⟩

/-!  ## C9: the scorer itself on an empty history  -/

/-- C9: called directly with empty transactions, patterns and anomalies,
`RiskScorer.calculate_risk_score` returns `risk_score = 5.0` and
`risk_level = "minimal"` (only the age factor is nonzero: the neutral 50,
weighted by 0.10), for every clock value; the `50 / "medium"` neutral
result is produced only by the `/risk-score` endpoint's early return. -/
theorem c9_scorer_empty_is_five (now : ℤ) (addr : String) (cat : List CatalogEntry)
    (t : ℚ) :
    calculateRiskScore now addr [] [] [] =
      { address := addr, risk_score := 5, risk_level := "minimal", patternScore := 0,
        anomalyScore := 0, counterpartyScore := 0, volumeScore := 0, ageScore := 50 } ∧
    riskScoreEndpoint cat t now addr [] =
      { address := addr, risk_score := 50, risk_level := "medium", factors := [],
        is_sanctioned := false, sanctioned_lists := [] } := by
  constructor
  · norm_num [calculateRiskScore, totalScore, calculatePatternRisk, calculateAnomalyRisk,
      calculateCounterpartyRisk, calculateVolumeRisk, calculateAgeRisk,
      determineRiskLevel, round2, rne]
  · rfl

/-!  ## C10: address independence of the statistical tests  -/

/-- The counterparty keys of `cpExampleTxs` for target `s1`. -/
lemma cpKeys_s1 :
    firstDedup (cpExampleTxs.map (cpOf "s1")) = ["r1", "s2", "s3", "s4", "s5"] := by
  decide

/-- The counterparty keys of `cpExampleTxs` for target `zzz`. -/
lemma cpKeys_zzz :
    firstDedup (cpExampleTxs.map (cpOf "zzz")) = ["s1", "s2", "s3", "s4", "s5"] := by
  decide

/-- Evaluation of the counterparty test on `cpExampleTxs` for target
`s1`: the one-time large counterparty is `r1`. -/
lemma cpEval_s1 :
    detectCounterpartyAnomalies 3 cpExampleTxs "s1" =
      [{ atype := "one_time_large_transaction", severity := "high", ref := "r1",
         metric := 10 }] := by
  have hc1 : cpCountOf cpExampleTxs "s1" "r1" = 1 := by decide
  have hc2 : cpCountOf cpExampleTxs "s1" "s2" = 1 := by decide
  have hc3 : cpCountOf cpExampleTxs "s1" "s3" = 1 := by decide
  have hc4 : cpCountOf cpExampleTxs "s1" "s4" = 1 := by decide
  have hc5 : cpCountOf cpExampleTxs "s1" "s5" = 1 := by decide
  have hf1 : cpExampleTxs.filter (fun tx => cpOf "s1" tx = "r1") =
      [mkTx "c1" "s1" "r1" 10 0] := by decide
  have hf2 : cpExampleTxs.filter (fun tx => cpOf "s1" tx = "s2") =
      [mkTx "c2" "s2" "r2" 1 0] := by decide
  have hf3 : cpExampleTxs.filter (fun tx => cpOf "s1" tx = "s3") =
      [mkTx "c3" "s3" "r3" 1 0] := by decide
  have hf4 : cpExampleTxs.filter (fun tx => cpOf "s1" tx = "s4") =
      [mkTx "c4" "s4" "r4" 1 0] := by decide
  have hf5 : cpExampleTxs.filter (fun tx => cpOf "s1" tx = "s5") =
      [mkTx "c5" "s5" "r5" 1 0] := by decide
  have ha1 : cpAmountOf cpExampleTxs "s1" "r1" = 10 := by
    simp only [cpAmountOf, hf1]; norm_num [mkTx]
  have ha2 : cpAmountOf cpExampleTxs "s1" "s2" = 1 := by
    simp only [cpAmountOf, hf2]; norm_num [mkTx]
  have ha3 : cpAmountOf cpExampleTxs "s1" "s3" = 1 := by
    simp only [cpAmountOf, hf3]; norm_num [mkTx]
  have ha4 : cpAmountOf cpExampleTxs "s1" "s4" = 1 := by
    simp only [cpAmountOf, hf4]; norm_num [mkTx]
  have ha5 : cpAmountOf cpExampleTxs "s1" "s5" = 1 := by
    simp only [cpAmountOf, hf5]; norm_num [mkTx]
  simp only [detectCounterpartyAnomalies, cpKeys_s1, List.length_cons, List.length_nil,
    List.map_cons, List.map_nil]
  norm_num [List.filterMap, pvar, listMean, zExceeds, hc1, hc2, hc3, hc4, hc5,
    ha1, ha2, ha3, ha4, ha5]

/-- Evaluation of the counterparty test on `cpExampleTxs` for target
`zzz`: the one-time large counterparty is `s1`. -/
lemma cpEval_zzz :
    detectCounterpartyAnomalies 3 cpExampleTxs "zzz" =
      [{ atype := "one_time_large_transaction", severity := "high", ref := "s1",
         metric := 10 }] := by
  have hc1 : cpCountOf cpExampleTxs "zzz" "s1" = 1 := by decide
  have hc2 : cpCountOf cpExampleTxs "zzz" "s2" = 1 := by decide
  have hc3 : cpCountOf cpExampleTxs "zzz" "s3" = 1 := by decide
  have hc4 : cpCountOf cpExampleTxs "zzz" "s4" = 1 := by decide
  have hc5 : cpCountOf cpExampleTxs "zzz" "s5" = 1 := by decide
  have hf1 : cpExampleTxs.filter (fun tx => cpOf "zzz" tx = "s1") =
      [mkTx "c1" "s1" "r1" 10 0] := by decide
  have hf2 : cpExampleTxs.filter (fun tx => cpOf "zzz" tx = "s2") =
      [mkTx "c2" "s2" "r2" 1 0] := by decide
  have hf3 : cpExampleTxs.filter (fun tx => cpOf "zzz" tx = "s3") =
      [mkTx "c3" "s3" "r3" 1 0] := by decide
  have hf4 : cpExampleTxs.filter (fun tx => cpOf "zzz" tx = "s4") =
      [mkTx "c4" "s4" "r4" 1 0] := by decide
  have hf5 : cpExampleTxs.filter (fun tx => cpOf "zzz" tx = "s5") =
      [mkTx "c5" "s5" "r5" 1 0] := by decide
  have ha1 : cpAmountOf cpExampleTxs "zzz" "s1" = 10 := by
    simp only [cpAmountOf, hf1]; norm_num [mkTx]
  have ha2 : cpAmountOf cpExampleTxs "zzz" "s2" = 1 := by
    simp only [cpAmountOf, hf2]; norm_num [mkTx]
  have ha3 : cpAmountOf cpExampleTxs "zzz" "s3" = 1 := by
    simp only [cpAmountOf, hf3]; norm_num [mkTx]
  have ha4 : cpAmountOf cpExampleTxs "zzz" "s4" = 1 := by
    simp only [cpAmountOf, hf4]; norm_num [mkTx]
  have ha5 : cpAmountOf cpExampleTxs "zzz" "s5" = 1 := by
    simp only [cpAmountOf, hf5]; norm_num [mkTx]
  simp only [detectCounterpartyAnomalies, cpKeys_zzz, List.length_cons, List.length_nil,
    List.map_cons, List.map_nil]
  norm_num [List.filterMap, pvar, listMean, zExceeds, hc1, hc2, hc3, hc4, hc5,
    ha1, ha2, ha3, ha4, ha5]

/-- C10: the amount, frequency and time-pattern tests ignore the target
address entirely (identical outputs for any two addresses, on every
input), while the counterparty test does read it: on `cpExampleTxs` the
targets `s1` and `zzz` produce different anomaly lists (the one-time
large counterparty is `r1` for the one and `s1` for the other). -/
theorem c10_address_independent :
    (∀ (t : ℚ) (txs : List Tx) (a1 a2 : String),
        detectAmountAnomalies t txs a1 = detectAmountAnomalies t txs a2) ∧
    (∀ (t : ℚ) (txs : List Tx) (a1 a2 : String),
        detectFrequencyAnomalies t txs a1 = detectFrequencyAnomalies t txs a2) ∧
    (∀ (t : ℚ) (txs : List Tx) (a1 a2 : String),
        detectTimeAnomalies t txs a1 = detectTimeAnomalies t txs a2) ∧
    (detectCounterpartyAnomalies 3 cpExampleTxs "s1").map Anomaly.ref = ["r1"] ∧
    (detectCounterpartyAnomalies 3 cpExampleTxs "zzz").map Anomaly.ref = ["s1"] := by
  refine ⟨fun _ _ _ _ => rfl, fun _ _ _ _ => rfl, fun _ _ _ _ => rfl, ?_, ?_⟩
  · rw [cpEval_s1]; rfl
  · rw [cpEval_zzz]; rfl

/-!  ## C2: the layering scenario (code bug)  -/

/-- The structuring filter finds nothing on the layering scenario. -/
lemma c2_struct_filter : structSuspicious catStructuring fiveChainTxs "a" = [] := by
  norm_num [structSuspicious, catStructuring, fiveChainTxs, mkTx, List.filter, lower_lit_a,
    lower_lit_b, lower_lit_c, lower_lit_d, lower_lit_e, lower_lit_f]

/-- The dusting filter finds nothing on the layering scenario. -/
lemma c2_dust_filter : dustTxsOf fiveChainTxs "a" = [] := by
  norm_num [dustTxsOf, fiveChainTxs, mkTx, List.filter, lower_lit_a, lower_lit_b,
    lower_lit_c, lower_lit_d, lower_lit_e, lower_lit_f]

/-- No smurfing match on the layering scenario (one outgoing
transaction). -/
lemma c2_mp_smurfing : matchPattern catSmurfing fiveChainTxs "a" = none := by decide

/-- No layering match on the layering scenario: the 5-hop chain is found
but rejected by the duplicate-address check. -/
lemma c2_mp_layering : matchPattern catLayering fiveChainTxs "a" = none := by decide

/-- No mixing match on the layering scenario. -/
lemma c2_mp_mixing : matchPattern (catMixing ["0xmixer"]) fiveChainTxs "a" = none := by
  decide

/-- No structuring match on the layering scenario. -/
lemma c2_mp_structuring : matchPattern catStructuring fiveChainTxs "a" = none := by
  have h : matchPattern catStructuring fiveChainTxs "a" =
      detectStructuring catStructuring fiveChainTxs "a" := by
    simp [matchPattern, catStructuring]
  rw [h]
  norm_num [detectStructuring, c2_struct_filter]

/-- No circular-trading match on the layering scenario. -/
lemma c2_mp_circular : matchPattern catCircular fiveChainTxs "a" = none := by decide

/-- No rapid-movement match on the layering scenario. -/
lemma c2_mp_rapid : matchPattern catRapid fiveChainTxs "a" = none := by decide

/-- No dusting match on the layering scenario. -/
lemma c2_mp_dusting : matchPattern catDusting fiveChainTxs "a" = none := by
  have h : matchPattern catDusting fiveChainTxs "a" =
      detectDusting catDusting fiveChainTxs "a" := by
    simp [matchPattern, catDusting]
  rw [h]
  norm_num [detectDusting, c2_dust_filter, firstDedup, firstDedupAux]

/-- No peel-chain match on the layering scenario. -/
lemma c2_mp_peel : matchPattern catPeelChain fiveChainTxs "a" = none := by decide

/-- C2: on the spec's own layering scenario — the chain
`a → b → c → d → e → f` of 5 hops within 10 hours with six distinct
addresses — the chain enumerator does find exactly that 5-hop chain, the
chain visits no address twice, and it completes within 24 hours; yet
`_detect_layering` returns no match (and `detect_patterns` returns no
patterns at all), because the detector checks for duplicates in the
concatenation of all `from` and all `to` fields, in which every junction
address of a genuine chain necessarily appears twice.  The spec's required
confidence of `5/10 = 0.5` is therefore never produced. -/
theorem c2_layering_scenario_bug :
    buildTransactionChains fiveChainTxs "a" 10 = [fiveChainTxs] ∧
    (chainVisited fiveChainTxs).Nodup ∧
    (fiveChainTxs.getLastD default).timestamp - (fiveChainTxs.headD default).timestamp ≤ 86400 ∧
    detectLayering catLayering fiveChainTxs "a" = none ∧
    detectPatterns (specCatalog ["0xmixer"]) fiveChainTxs "a" = [] := by
  refine ⟨by decide, by decide, by decide, by decide, ?_⟩
  simp only [detectPatterns, specCatalog, List.filterMap_cons, List.filterMap_nil,
    c2_mp_smurfing, c2_mp_layering, c2_mp_mixing, c2_mp_structuring, c2_mp_circular,
    c2_mp_rapid, c2_mp_dusting, c2_mp_peel]

/-!  ## C1: chain invariants  -/

/-- Worklist invariant of the chain BFS: if every queued chain and every
emitted chain has length between 1 and `max_hops`, so does every chain in
the final output — emission preserves the bound and a chain is only
extended while strictly below `max_hops`. -/
lemma chainBfs_length_inv (txs : List Tx) (mh : ℕ) :
    ∀ (fuel : ℕ) (q : List (List Tx × String)) (acc : List (List Tx)),
      (∀ p ∈ q, 1 ≤ p.1.length ∧ p.1.length ≤ mh) →
      (∀ c ∈ acc, 1 ≤ c.length ∧ c.length ≤ mh) →
      ∀ c ∈ chainBfs txs mh fuel q acc, 1 ≤ c.length ∧ c.length ≤ mh := by
  intro fuel
  induction fuel with
  | zero => intro q acc _ hacc c hc; exact hacc c hc
  | succ f ih =>
    intro q acc hq hacc c hc
    match q with
    | [] => exact hacc c hc
    | (chain, a) :: rest =>
      have hchain := hq (chain, a) (by simp)
      rw [chainBfs] at hc
      by_cases h1 : mh ≤ chain.length
      · rw [if_pos h1] at hc
        refine ih rest (acc ++ [chain]) (fun p hp => hq p (by simp [hp])) ?_ c hc
        intro d hd
        rcases List.mem_append.mp hd with hd | hd
        · exact hacc d hd
        · simp at hd; subst hd; exact hchain
      · rw [if_neg h1] at hc
        by_cases h2 : chainAdj txs a = []
        · simp only [h2, if_pos rfl] at hc
          by_cases h3 : 3 ≤ chain.length
          · rw [if_pos h3] at hc
            refine ih rest (acc ++ [chain]) (fun p hp => hq p (by simp [hp])) ?_ c hc
            intro d hd
            rcases List.mem_append.mp hd with hd | hd
            · exact hacc d hd
            · simp at hd; subst hd; exact hchain
          · rw [if_neg h3] at hc
            exact ih rest acc (fun p hp => hq p (by simp [hp])) hacc c hc
        · simp only [if_neg h2] at hc
          refine ih _ acc ?_ hacc c hc
          intro p hp
          rcases List.mem_append.mp hp with hp | hp
          · exact hq p (by simp [hp])
          · rcases List.mem_map.mp hp with ⟨t, _, rfl⟩
            simp only [List.length_append, List.length_cons, List.length_nil]
            omega

/-- C1 (amended): for every transaction list, start address and
`max_hops ≥ 1`, every chain returned by `_build_transaction_chains` has
between 1 and `max_hops` edges.  (The no-repeated-address half of the
original claim is false for this enumerator; see
`c1_repeat_counterexample`.) -/
theorem c1_chain_length (txs : List Tx) (startAddr : String) (mh : ℕ)
    (hmh : 1 ≤ mh) :
    ∀ chain ∈ buildTransactionChains txs startAddr mh,
      1 ≤ chain.length ∧ chain.length ≤ mh := by
  intro chain hchain
  refine chainBfs_length_inv txs mh _ _ [] ?_ (by simp) chain hchain
  intro p hp
  rcases List.mem_map.mp hp with ⟨t, _, rfl⟩
  simpa using hmh

/-- C1 counterexample: on the two-transaction cycle `a → b → a` with
`max_hops = 2`, the enumerator returns exactly the chain `a → b → a`,
whose visited-address sequence `[a, b, a]` repeats the address `a` —
refuting "no address appears twice among the chain's endpoints". -/
theorem c1_repeat_counterexample :
    buildTransactionChains cycTxs "a" 2 =
      [[mkTx "t1" "a" "b" 1 0, mkTx "t2" "b" "a" 1 60]] ∧
    ¬ (chainVisited [mkTx "t1" "a" "b" 1 0, mkTx "t2" "b" "a" 1 60]).Nodup := by
  constructor
  · decide
  · decide

/-- Witness for `c1_chain_length` at the concrete cycle input. -/
theorem c1_chain_length_witness :
    1 ≤ 2 ∧
    (1 ≤ ([mkTx "t1" "a" "b" 1 0, mkTx "t2" "b" "a" 1 60] : List Tx).length ∧
      ([mkTx "t1" "a" "b" 1 0, mkTx "t2" "b" "a" 1 60] : List Tx).length ≤ 2) :=
  ⟨by decide,
    c1_chain_length cycTxs "a" 2 (by decide)
      [mkTx "t1" "a" "b" 1 0, mkTx "t2" "b" "a" 1 60] (by decide)⟩

/-!  ## C3: no cap on chain enumeration  -/

/-- A mapped list filtered by a predicate false on the image is empty. -/
lemma filter_map_false {α β : Type} (f : α → β) (p : β → Bool) (l : List α)
    (h : ∀ a, p (f a) = false) : (l.map f).filter p = [] := by
  induction l with
  | nil => rfl
  | cons x xs ih => simp [List.filter_cons, h x, ih]

/-- Adjacency of the family input at `a`: just the first stem edge. -/
lemma famAdj_a (n : ℕ) : chainAdj (famTx n) "a" = [famA] := by
  unfold chainAdj famTx
  rw [List.filter_cons_of_pos (by decide), List.filter_cons_of_neg (by decide),
    filter_map_false _ _ _ (fun i => rfl)]

/-- Adjacency of the family input at `b`: just the second stem edge. -/
lemma famAdj_b (n : ℕ) : chainAdj (famTx n) "b" = [famB] := by
  unfold chainAdj famTx
  rw [List.filter_cons_of_neg (by decide), List.filter_cons_of_pos (by decide),
    filter_map_false _ _ _ (fun i => rfl)]

/-- Adjacency of the family input at `c`: all `n` parallel tail edges. -/
lemma famAdj_c (n : ℕ) : chainAdj (famTx n) "c" = (List.range n).map famU := by
  unfold chainAdj famTx
  rw [List.filter_cons_of_neg (by decide), List.filter_cons_of_neg (by decide),
    List.filter_eq_self.mpr (fun a ha => ?_)]
  rcases List.mem_map.mp ha with ⟨i, _, rfl⟩
  rfl

/-- Adjacency of the family input at `d`: none (dead end). -/
lemma famAdj_d (n : ℕ) : chainAdj (famTx n) "d" = [] := by
  unfold chainAdj famTx
  rw [List.filter_cons_of_neg (by decide), List.filter_cons_of_neg (by decide),
    filter_map_false _ _ _ (fun i => rfl)]

/-- The second stem edge points at `c`. -/
lemma lower_famB_to : lowerStr famB.toAddr = "c" := rfl

/-- Every tail edge points at `d`. -/
lemma lower_famU_to (i : ℕ) : lowerStr (famU i).toAddr = "d" := rfl

/-- The BFS with an empty worklist returns its accumulator. -/
lemma chainBfs_emptyq (txs : List Tx) (mh : ℕ) :
    ∀ (fuel : ℕ) (acc : List (List Tx)), chainBfs txs mh fuel [] acc = acc := by
  intro fuel acc
  cases fuel <;> rfl

/-- A worklist whose every entry is a dead end (no outgoing edges) of
length in `[3, max_hops)` emits exactly its chains, in order. -/
lemma chainBfs_deadend (txs : List Tx) (mh : ℕ) :
    ∀ (q : List (List Tx × String)) (fuel : ℕ) (acc : List (List Tx)),
      (∀ p ∈ q, chainAdj txs p.2 = [] ∧ 3 ≤ p.1.length ∧ p.1.length < mh) →
      q.length < fuel →
      chainBfs txs mh fuel q acc = acc ++ q.map Prod.fst := by
  intro q
  induction q with
  | nil => intro fuel acc _ _; rw [chainBfs_emptyq]; simp
  | cons p rest ih =>
    intro fuel acc hq hf
    obtain ⟨chain, a⟩ := p
    have hall := hq (chain, a) (by simp)
    have hadj : chainAdj txs a = [] := hall.1
    have h3 : 3 ≤ chain.length := hall.2.1
    have hlt : chain.length < mh := hall.2.2
    match fuel, hf with
    | f + 1, hf =>
      rw [chainBfs, if_neg (by omega)]
      simp only [hadj, if_pos rfl]
      rw [if_pos h3]
      rw [ih f (acc ++ [chain]) (fun p hp => hq p (by simp [hp]))
        (by simp only [List.length_cons] at hf; omega)]
      simp

/-- On the family input with `n` parallel tails, `_build_transaction_chains`
returns exactly `n` chains: the number of chains grows linearly with the
input, with no cap and no early stop. -/
lemma famChainCount (n : ℕ) :
    (buildTransactionChains (famTx n) "a" 10).length = n := by
  rcases Nat.eq_zero_or_pos n with hn | hn
  · subst hn; decide
  have hq0 : (chainAdj (famTx n) (lowerStr "a")).map
      (fun t => ([t], lowerStr t.toAddr)) = [([famA], "b")] := by
    rw [lower_lit_a, famAdj_a]
    simp [famA, mkTx, lower_lit_b]
  have hlen : (famTx n).length = n + 2 := by simp [famTx]
  have hstep : ∀ f : ℕ, n + 1 ≤ f →
      (chainBfs (famTx n) 10 (f + 2) [([famA], "b")] []).length = n := by
    intro f hf
    rw [show f + 2 = (f + 1) + 1 from rfl, chainBfs, if_neg (by simp)]
    simp only [famAdj_b]
    rw [if_neg (by simp)]
    simp only [List.map_cons, List.map_nil, List.nil_append, lower_famB_to]
    rw [chainBfs, if_neg (by simp)]
    simp only [famAdj_c]
    rw [if_neg (by simp [List.map_eq_nil_iff, List.range_eq_nil]; omega)]
    rw [List.nil_append, List.map_map]
    simp only [Function.comp_def, lower_famU_to]
    rw [chainBfs_deadend (famTx n) 10 _ f [] ?_ ?_]
    · simp
    · intro p hp
      rcases List.mem_map.mp hp with ⟨i, _, rfl⟩
      exact ⟨famAdj_d n, by simp, by simp⟩
    · simp only [List.length_map, List.length_range]
      omega
  unfold buildTransactionChains chainFuel
  rw [hq0, hlen]
  have hpow : (n + 2 + 1) ^ (10 + 1) = (n + 3) ^ 11 := by norm_num
  rw [hpow]
  generalize hK : (n + 3) ^ 11 = K
  have h1 : n + 3 ≤ K := by rw [← hK]; exact Nat.le_self_pow (by norm_num) _
  rcases Nat.exists_eq_add_of_le h1 with ⟨m, hm⟩
  rw [hm]
  have h2 : n + 3 + m + 1 = (n + 2 + m) + 2 := by omega
  rw [h2]
  exact hstep (n + 2 + m) (by omega)

/-- C3: there is no cap on the number of chains explored or produced.
On the family input with `n` parallel tails the enumerator produces
exactly `n` chains for every `n`, so no constant bounds the number of
chains produced by `_build_transaction_chains` over all inputs — refuting
the claimed fixed cap ("a few thousand") and early stop. -/
theorem c3_no_chain_cap :
    (∀ n : ℕ, (buildTransactionChains (famTx n) "a" 10).length = n) ∧
    ¬ ∃ cap : ℕ, ∀ (txs : List Tx) (startAddr : String),
        (buildTransactionChains txs startAddr 10).length ≤ cap := by
  refine ⟨famChainCount, ?_⟩
  rintro ⟨cap, hcap⟩
  have h := hcap (famTx (cap + 1)) "a"
  rw [famChainCount (cap + 1)] at h
  omega

/-!  ## C6: mixing detection  -/

/-- A smurfing match carries its catalog entry id. -/
lemma detectSmurfing_pid {p : CatalogEntry} {txs : List Tx} {addr : String}
    {m : PatternMatch} (h : detectSmurfing p txs addr = some m) :
    m.pattern_id = p.pid := by
  unfold detectSmurfing at h
  obtain ⟨x, hx, hsome⟩ := List.exists_of_findSome?_eq_some h
  simp only [] at hsome
  split_ifs at hsome <;> simp_all
  subst hsome
  rfl

/-- A layering match carries its catalog entry id. -/
lemma detectLayering_pid {p : CatalogEntry} {txs : List Tx} {addr : String}
    {m : PatternMatch} (h : detectLayering p txs addr = some m) :
    m.pattern_id = p.pid := by
  unfold detectLayering at h
  obtain ⟨x, hx, hsome⟩ := List.exists_of_findSome?_eq_some h
  simp only [] at hsome
  split_ifs at hsome <;> simp_all
  subst hsome
  rfl

/-- A mixing match carries its catalog entry id. -/
lemma detectMixing_pid {p : CatalogEntry} {txs : List Tx} {addr : String}
    {m : PatternMatch} (h : detectMixing p txs addr = some m) :
    m.pattern_id = p.pid := by
  unfold detectMixing at h
  simp only [] at h
  split_ifs at h <;> simp_all
  subst h
  rfl

/-- A structuring match carries its catalog entry id. -/
lemma detectStructuring_pid {p : CatalogEntry} {txs : List Tx} {addr : String}
    {m : PatternMatch} (h : detectStructuring p txs addr = some m) :
    m.pattern_id = p.pid := by
  unfold detectStructuring at h
  simp only [] at h
  split_ifs at h <;> simp_all
  subst h
  rfl

/-- A circular-trading match carries its catalog entry id. -/
lemma detectCircularTrading_pid {p : CatalogEntry} {txs : List Tx} {addr : String}
    {m : PatternMatch} (h : detectCircularTrading p txs addr = some m) :
    m.pattern_id = p.pid := by
  unfold detectCircularTrading at h
  obtain ⟨x, hx, hsome⟩ := List.exists_of_findSome?_eq_some h
  simp only [] at hsome
  split_ifs at hsome <;> simp_all
  subst hsome
  rfl

/-- A rapid-movement match carries its catalog entry id. -/
lemma detectRapidMovement_pid {p : CatalogEntry} {txs : List Tx} {addr : String}
    {m : PatternMatch} (h : detectRapidMovement p txs addr = some m) :
    m.pattern_id = p.pid := by
  unfold detectRapidMovement at h
  simp only [] at h
  split_ifs at h <;> simp_all
  subst h
  rfl

/-- A dusting match carries its catalog entry id. -/
lemma detectDusting_pid {p : CatalogEntry} {txs : List Tx} {addr : String}
    {m : PatternMatch} (h : detectDusting p txs addr = some m) :
    m.pattern_id = p.pid := by
  unfold detectDusting at h
  simp only [] at h
  split_ifs at h <;> simp_all
  subst h
  rfl

/-- A peel-chain match carries its catalog entry id. -/
lemma detectPeelChain_pid {p : CatalogEntry} {txs : List Tx} {addr : String}
    {m : PatternMatch} (h : detectPeelChain p txs addr = some m) :
    m.pattern_id = p.pid := by
  unfold detectPeelChain at h
  simp only [] at h
  split_ifs at h <;> simp_all
  subst h
  rfl

/-- Every match produced by `_match_pattern` carries the id of the catalog
entry that produced it. -/
lemma matchPattern_pid {p : CatalogEntry} {txs : List Tx} {addr : String}
    {m : PatternMatch} (h : matchPattern p txs addr = some m) :
    m.pattern_id = p.pid := by
  unfold matchPattern at h
  split_ifs at h
  · exact detectSmurfing_pid h
  · exact detectLayering_pid h
  · exact detectMixing_pid h
  · exact detectStructuring_pid h
  · exact detectCircularTrading_pid h
  · exact detectRapidMovement_pid h
  · exact detectDusting_pid h
  · exact detectPeelChain_pid h

/-- `_detect_mixing` matches — with confidence exactly 1.0 — whenever some
transaction touches a known mixer case-insensitively. -/
lemma detectMixing_fires {p : CatalogEntry} {txs : List Tx} (addr : String)
    (hmix : ∃ tx ∈ txs, lowerStr tx.fromAddr ∈ p.knownMixers.map lowerStr ∨
        lowerStr tx.toAddr ∈ p.knownMixers.map lowerStr) :
    ∃ m, detectMixing p txs addr = some m ∧ m.confidence = 1 ∧ m.pattern_id = p.pid := by
  obtain ⟨tx, htx, hpred⟩ := hmix
  have hne : mixerTxsOf p txs ≠ [] := by
    have hmem : tx ∈ mixerTxsOf p txs := List.mem_filter.mpr ⟨htx, by simpa using hpred⟩
    exact List.ne_nil_of_mem hmem
  unfold detectMixing
  simp only []
  rw [if_neg hne]
  exact ⟨_, rfl, rfl, rfl⟩

/-- A catalog without a mixing entry contributes no match with
`pattern_id = "mixing"`. -/
lemma detectPatterns_no_mixing (txs : List Tx) (addr : String) :
    ∀ cat : List CatalogEntry, cat.filter (fun p => p.pid = "mixing") = [] →
      (detectPatterns cat txs addr).filter (fun m => m.pattern_id = "mixing") = [] := by
  intro cat
  induction cat with
  | nil => intro _; rfl
  | cons p rest ih =>
    intro hcat
    rw [List.filter_cons] at hcat
    by_cases hp : p.pid = "mixing"
    · rw [if_pos (by simpa using hp)] at hcat
      cases hcat
    · rw [if_neg (by simpa using hp)] at hcat
      simp only [detectPatterns, List.filterMap_cons]
      cases hmp : matchPattern p txs addr with
      | none => exact ih hcat
      | some m =>
        rw [List.filter_cons, if_neg (by simp [matchPattern_pid hmp, hp])]
        exact ih hcat

/-- For any catalog with exactly one mixing entry and any transaction list
touching one of its known mixers, `detect_patterns` returns exactly one
mixing match, and its confidence is 1.0. -/
lemma detectPatterns_mixing_unique (txs : List Tx) (addr : String) :
    ∀ (cat : List CatalogEntry) (e : CatalogEntry),
      cat.filter (fun p => p.pid = "mixing") = [e] →
      (∃ tx ∈ txs, lowerStr tx.fromAddr ∈ e.knownMixers.map lowerStr ∨
          lowerStr tx.toAddr ∈ e.knownMixers.map lowerStr) →
      ∃ m, (detectPatterns cat txs addr).filter (fun q => q.pattern_id = "mixing") = [m] ∧
        m.confidence = 1 ∧ m.pattern_id = "mixing" := by
  intro cat
  induction cat with
  | nil => intro e he _; simp at he
  | cons p rest ih =>
    intro e he hmix
    rw [List.filter_cons] at he
    by_cases hp : p.pid = "mixing"
    · rw [if_pos (by simpa using hp)] at he
      have hpe : p = e := (List.cons_eq_cons.mp he).1
      have hrest : rest.filter (fun p => p.pid = "mixing") = [] :=
        (List.cons_eq_cons.mp he).2
      have hdisp : matchPattern p txs addr = detectMixing p txs addr := by
        unfold matchPattern
        rw [if_neg (by rw [hp]; decide), if_neg (by rw [hp]; decide), if_pos hp]
      obtain ⟨m, hm, hconf, hpid⟩ := detectMixing_fires (p := p) addr (by rw [hpe]; exact hmix)
      refine ⟨m, ?_, hconf, by rw [hpid, hp]⟩
      simp only [detectPatterns, List.filterMap_cons, hdisp, hm]
      rw [List.filter_cons, if_pos (by simp [hpid, hp])]
      have hres := detectPatterns_no_mixing txs addr rest hrest
      simp only [detectPatterns] at hres
      rw [hres]
    · rw [if_neg (by simpa using hp)] at he
      obtain ⟨m, hm, hconf, hpid⟩ := ih e he hmix
      refine ⟨m, ?_, hconf, hpid⟩
      simp only [detectPatterns, List.filterMap_cons]
      cases hmp : matchPattern p txs addr with
      | none => simpa [detectPatterns] using hm
      | some m' =>
        rw [List.filter_cons, if_neg (by simp [matchPattern_pid hmp, hp])]
        simpa [detectPatterns] using hm

/-- Evaluation rule for `round2` when the scaled value rounds down. -/
lemma round2_eq_down {q : ℚ} {z : ℤ} (h1 : (z : ℚ) ≤ q * 100)
    (h2 : q * 100 < (z : ℚ) + 1 / 2) : round2 q = (z : ℚ) / 100 := by
  have hfl : ⌊q * 100⌋ = z := by
    rw [Int.floor_eq_iff]
    · exact ⟨h1, by push_cast; linarith⟩
  unfold round2 rne
  rw [hfl, if_pos (by linarith)]

/-- Evaluation rule for `round2` when the scaled value rounds up. -/
lemma round2_eq_up {q : ℚ} {z : ℤ} (h1 : (z : ℚ) + 1 / 2 < q * 100)
    (h2 : q * 100 < (z : ℚ) + 1) : round2 q = ((z + 1 : ℤ) : ℚ) / 100 := by
  have hfl : ⌊q * 100⌋ = z := by
    rw [Int.floor_eq_iff]
    · constructor
      · linarith
      · push_cast; linarith
  unfold round2 rne
  rw [hfl, if_neg (by linarith), if_pos (by linarith)]

/-- All three scenario transactions touch the known mixer. -/
lemma c6_mixerTxs : mixerTxsOf (catMixing ["0xmixer"]) mixScnTxs = mixScnTxs := by
  unfold mixerTxsOf
  refine List.filter_eq_self.mpr (fun t ht => ?_)
  fin_cases ht <;> decide

/-- The mixing detector fires on the mixing scenario. -/
lemma c6_mp_mixing :
    matchPattern (catMixing ["0xmixer"]) mixScnTxs "0xA" = some mixScnMatch := by
  have hdisp : matchPattern (catMixing ["0xmixer"]) mixScnTxs "0xA" =
      detectMixing (catMixing ["0xmixer"]) mixScnTxs "0xA" := by
    unfold matchPattern
    rw [if_neg (by decide), if_neg (by decide), if_pos (by decide)]
  rw [hdisp]
  unfold detectMixing
  simp only [c6_mixerTxs]
  rw [if_neg (by simp [mixScnTxs])]
  simp only [mixScnMatch, mixScnTxs, mkTx, catMixing]
  norm_num

/-- No smurfing match on the mixing scenario (3 < 10 transactions). -/
lemma c6_mp_smurfing : matchPattern catSmurfing mixScnTxs "0xA" = none := by decide

/-- No layering match on the mixing scenario. -/
lemma c6_mp_layering : matchPattern catLayering mixScnTxs "0xA" = none := by decide

/-- The structuring filter finds nothing on the mixing scenario. -/
lemma c6_struct_filter : structSuspicious catStructuring mixScnTxs "0xA" = [] := by
  norm_num [structSuspicious, catStructuring, mixScnTxs, mkTx, List.filter, lower_lit_0xA]

/-- No structuring match on the mixing scenario. -/
lemma c6_mp_structuring : matchPattern catStructuring mixScnTxs "0xA" = none := by
  have hdisp : matchPattern catStructuring mixScnTxs "0xA" =
      detectStructuring catStructuring mixScnTxs "0xA" := by
    unfold matchPattern
    rw [if_neg (by decide), if_neg (by decide), if_neg (by decide), if_pos (by decide)]
  rw [hdisp]
  norm_num [detectStructuring, c6_struct_filter]

/-- No circular-trading match on the mixing scenario. -/
lemma c6_mp_circular : matchPattern catCircular mixScnTxs "0xA" = none := by decide

/-- No rapid-movement match on the mixing scenario. -/
lemma c6_mp_rapid : matchPattern catRapid mixScnTxs "0xA" = none := by decide

/-- The dusting filter finds nothing on the mixing scenario. -/
lemma c6_dust_filter : dustTxsOf mixScnTxs "0xA" = [] := by
  norm_num [dustTxsOf, mixScnTxs, mkTx, List.filter, lower_lit_0xA]

/-- No dusting match on the mixing scenario. -/
lemma c6_mp_dusting : matchPattern catDusting mixScnTxs "0xA" = none := by
  have hdisp : matchPattern catDusting mixScnTxs "0xA" =
      detectDusting catDusting mixScnTxs "0xA" := by
    unfold matchPattern
    rw [if_neg (by decide), if_neg (by decide), if_neg (by decide), if_neg (by decide),
      if_neg (by decide), if_neg (by decide), if_pos (by decide)]
  rw [hdisp]
  norm_num [detectDusting, c6_dust_filter, firstDedup, firstDedupAux]

/-- No peel-chain match on the mixing scenario. -/
lemma c6_mp_peel : matchPattern catPeelChain mixScnTxs "0xA" = none := by decide

/-- On the mixing scenario, `detect_patterns` over the full catalog returns
exactly the mixing match. -/
lemma c6_detect :
    detectPatterns (specCatalog ["0xmixer"]) mixScnTxs "0xA" = [mixScnMatch] := by
  simp only [detectPatterns, specCatalog, List.filterMap_cons, List.filterMap_nil,
    c6_mp_smurfing, c6_mp_layering, c6_mp_mixing, c6_mp_structuring, c6_mp_circular,
    c6_mp_rapid, c6_mp_dusting, c6_mp_peel]

/-- The pattern risk of the scenario's mixing match: one critical pattern
at confidence 1.0 scores `min(1.0 * 1.0 * 50, 100) = 50`. -/
lemma c6_pattern_risk : calculatePatternRisk [mixScnMatch] = 50 := by
  have h : round2 (50 : ℚ) = 50 := by
    rw [round2_eq_down (z := 5000) (by norm_num) (by norm_num)]
    norm_num
  norm_num [calculatePatternRisk, mixScnMatch, riskWeight, h]

/-- C6: (general) for every catalog with exactly one mixing entry and
every transaction list with a transaction whose `from` or `to` equals a
`known_mixers` entry case-insensitively, `detect_patterns` returns exactly
one mixing match with confidence 1.0; (scenario) three transactions of
0.1, 0.2, 0.3 from `0xA` to the mixer within one hour produce exactly the
mixing match with confidence 1.0 and `total_amount = 0.6`, and the
RiskScorer pattern-factor contribution is `50 × 0.35 = 17.5 ≥ 17.5`. -/
theorem c6_mixing_exactly_one :
    (∀ (cat : List CatalogEntry) (txs : List Tx) (addr : String) (e : CatalogEntry),
      cat.filter (fun p => p.pid = "mixing") = [e] →
      (∃ tx ∈ txs, lowerStr tx.fromAddr ∈ e.knownMixers.map lowerStr ∨
          lowerStr tx.toAddr ∈ e.knownMixers.map lowerStr) →
      ∃ m, (detectPatterns cat txs addr).filter (fun q => q.pattern_id = "mixing") = [m] ∧
        m.confidence = 1 ∧ m.pattern_id = "mixing") ∧
    detectPatterns (specCatalog ["0xmixer"]) mixScnTxs "0xA" = [mixScnMatch] ∧
    mixScnMatch.confidence = 1 ∧
    mixScnMatch.total_amount = 3 / 5 ∧
    (35 : ℚ) / 2 ≤
      calculatePatternRisk (detectPatterns (specCatalog ["0xmixer"]) mixScnTxs "0xA") *
        (35 / 100) := by
  refine ⟨fun cat txs addr e he hmix => detectPatterns_mixing_unique txs addr cat e he hmix,
    c6_detect, rfl, rfl, ?_⟩
  rw [c6_detect, c6_pattern_risk]
  norm_num

/-- Witness for the general half of `c6_mixing_exactly_one`, instantiated
at the mixing scenario. -/
theorem c6_mixing_witness :
    ∃ m, (detectPatterns (specCatalog ["0xmixer"]) mixScnTxs "0xA").filter
        (fun q => q.pattern_id = "mixing") = [m] ∧
      m.confidence = 1 ∧ m.pattern_id = "mixing" :=
  c6_mixing_exactly_one.1 (specCatalog ["0xmixer"]) mixScnTxs "0xA"
    (catMixing ["0xmixer"]) (by decide)
    ⟨mkTx "m1" "0xA" "0xMixer" (1 / 10) 0, List.mem_cons_self _ _, by decide⟩

/-!  ## C5: score bounds and level bucketing  -/

/-- Round-half-to-even lies between floor and ceiling. -/
lemma rne_bounds (q : ℚ) : (⌊q⌋ : ℚ) ≤ (rne q : ℚ) ∧ (rne q : ℚ) ≤ (⌈q⌉ : ℚ) := by
  have hceil : (⌊q⌋ : ℚ) < q → ⌊q⌋ + 1 ≤ ⌈q⌉ := by
    intro h
    have : ⌊q⌋ < ⌈q⌉ := Int.lt_ceil.mpr h
    omega
  unfold rne
  split_ifs with h1 h2 h3
  · exact ⟨le_refl _, by exact_mod_cast Int.floor_le_ceil q⟩
  · have h4 : ⌊q⌋ + 1 ≤ ⌈q⌉ := hceil (by linarith)
    constructor
    · push_cast; linarith
    · exact_mod_cast h4
  · exact ⟨le_refl _, by exact_mod_cast Int.floor_le_ceil q⟩
  · have h4 : ⌊q⌋ + 1 ≤ ⌈q⌉ := hceil (by linarith)
    constructor
    · push_cast; linarith
    · exact_mod_cast h4

/-- `round2` maps `[0, 100]` into `[0, 100]`. -/
lemma round2_bounds {q : ℚ} (h0 : 0 ≤ q) (h1 : q ≤ 100) :
    0 ≤ round2 q ∧ round2 q ≤ 100 := by
  have hb := rne_bounds (q * 100)
  have hfl : (0 : ℚ) ≤ (⌊q * 100⌋ : ℚ) := by
    exact_mod_cast Int.floor_nonneg.mpr (by linarith)
  have hcl : (⌈q * 100⌉ : ℚ) ≤ 10000 := by
    have : ⌈q * 100⌉ ≤ ⌈(10000 : ℚ)⌉ := Int.ceil_le_ceil (by linarith)
    simpa using (by exact_mod_cast this : ((⌈q * 100⌉ : ℤ) : ℚ) ≤ ((⌈(10000 : ℚ)⌉ : ℤ) : ℚ))
  unfold round2
  constructor
  · exact div_nonneg (le_trans hfl hb.1) (by norm_num)
  · rw [div_le_iff (by norm_num)]
    linarith [hb.2]

/-- Every risk/severity weight is nonnegative. -/
lemma riskWeight_nonneg (s : String) : 0 ≤ riskWeight s := by
  unfold riskWeight
  split_ifs <;> norm_num

/-- The pattern factor lies in `[0, 100]` when every detected pattern's
confidence is nonnegative (the data-model invariant `confidence ∈ [0,1]`
guarantees this). -/
lemma calculatePatternRisk_bounds {pats : List PatternMatch}
    (h : ∀ p ∈ pats, 0 ≤ p.confidence) :
    0 ≤ calculatePatternRisk pats ∧ calculatePatternRisk pats ≤ 100 := by
  unfold calculatePatternRisk
  split_ifs with hnil
  · norm_num
  · have hsum : 0 ≤ (pats.map (fun p => riskWeight p.risk_level * p.confidence)).sum := by
      refine List.sum_nonneg (fun x hx => ?_)
      rcases List.mem_map.mp hx with ⟨p, hp, rfl⟩
      exact mul_nonneg (riskWeight_nonneg _) (h p hp)
    refine round2_bounds ?_ ?_
    · exact le_min (by linarith) (by norm_num)
    · exact min_le_right _ _

/-- The anomaly factor lies in `[0, 100]` unconditionally. -/
lemma calculateAnomalyRisk_bounds (anos : List Anomaly) :
    0 ≤ calculateAnomalyRisk anos ∧ calculateAnomalyRisk anos ≤ 100 := by
  unfold calculateAnomalyRisk
  split_ifs with hnil
  · norm_num
  · have hsum : 0 ≤ (anos.map (fun a => riskWeight a.severity)).sum := by
      refine List.sum_nonneg (fun x hx => ?_)
      rcases List.mem_map.mp hx with ⟨a, ha, rfl⟩
      exact riskWeight_nonneg _
    refine round2_bounds ?_ ?_
    · exact le_min (by linarith) (by norm_num)
    · exact min_le_right _ _

/-- The counterparty factor lies in `[0, 100]` unconditionally. -/
lemma calculateCounterpartyRisk_bounds (txs : List Tx) :
    0 ≤ calculateCounterpartyRisk txs ∧ calculateCounterpartyRisk txs ≤ 100 := by
  unfold calculateCounterpartyRisk
  simp only []
  split_ifs with hnil htot
  · norm_num
  · norm_num
  · have hle : highRiskTxCount txs ≤ txs.length := List.length_filter_le _ _
    have hpos : 0 < (txs.length : ℚ) := by
      have : txs.length ≠ 0 := by
        simpa [List.length_eq_zero] using hnil
      exact_mod_cast Nat.pos_of_ne_zero this
    refine round2_bounds ?_ ?_
    · positivity
    · rw [div_mul_eq_mul_div, div_le_iff hpos]
      have : (highRiskTxCount txs : ℚ) ≤ (txs.length : ℚ) := by exact_mod_cast hle
      nlinarith

/-- The volume factor lies in `[0, 100]` unconditionally. -/
lemma calculateVolumeRisk_bounds (txs : List Tx) :
    0 ≤ calculateVolumeRisk txs ∧ calculateVolumeRisk txs ≤ 100 := by
  unfold calculateVolumeRisk
  simp only []
  split_ifs <;>
    first
      | exact round2_bounds (by norm_num) (by norm_num)
      | norm_num

/-- The age factor lies in `[0, 100]` unconditionally. -/
lemma calculateAgeRisk_bounds (now : ℤ) (txs : List Tx) :
    0 ≤ calculateAgeRisk now txs ∧ calculateAgeRisk now txs ≤ 100 := by
  unfold calculateAgeRisk
  simp only []
  split_ifs <;>
    first
      | exact round2_bounds (by norm_num) (by norm_num)
      | norm_num

/-- The weighted total lies in `[0, 100]`: the five factors are in
`[0, 100]` and the weights `0.35 + 0.25 + 0.20 + 0.10 + 0.10` sum to 1. -/
lemma totalScore_bounds (now : ℤ) (txs : List Tx) (pats : List PatternMatch)
    (anos : List Anomaly) (h : ∀ p ∈ pats, 0 ≤ p.confidence) :
    0 ≤ totalScore now txs pats anos ∧ totalScore now txs pats anos ≤ 100 := by
  obtain ⟨p0, p1⟩ := calculatePatternRisk_bounds h
  obtain ⟨a0, a1⟩ := calculateAnomalyRisk_bounds anos
  obtain ⟨c0, c1⟩ := calculateCounterpartyRisk_bounds txs
  obtain ⟨v0, v1⟩ := calculateVolumeRisk_bounds txs
  obtain ⟨g0, g1⟩ := calculateAgeRisk_bounds now txs
  unfold totalScore
  constructor <;> nlinarith

/-- C5 (amended): for every input whose detected patterns have
nonnegative confidences, the returned `risk_score` lies in `[0, 100]`, and
`risk_level` is the exact non-overlapping bucketing (≥80 critical,
≥60 high, ≥40 medium, ≥20 low, else minimal) of the *unrounded* weighted
total.  The bucketing of the returned (rounded) `risk_score` itself can
disagree at the breakpoints — see `c5_boundary_counterexample`. -/
theorem c5_amended (now : ℤ) (addr : String) (txs : List Tx)
    (pats : List PatternMatch) (anos : List Anomaly)
    (h : ∀ p ∈ pats, 0 ≤ p.confidence) :
    0 ≤ (calculateRiskScore now addr txs pats anos).risk_score ∧
    (calculateRiskScore now addr txs pats anos).risk_score ≤ 100 ∧
    (calculateRiskScore now addr txs pats anos).risk_level =
      (if 80 ≤ totalScore now txs pats anos then "critical"
       else if 60 ≤ totalScore now txs pats anos then "high"
       else if 40 ≤ totalScore now txs pats anos then "medium"
       else if 20 ≤ totalScore now txs pats anos then "low"
       else "minimal") := by
  obtain ⟨h0, h1⟩ := totalScore_bounds now txs pats anos h
  obtain ⟨r0, r1⟩ := round2_bounds h0 h1
  exact ⟨r0, r1, rfl⟩

/-- Pattern factor of the boundary counterexample: two critical patterns
with confidences 1 and 0.0112 score `round2(50.56) = 50.56`. -/
lemma c5_pattern_eval : calculatePatternRisk [c5p1, c5p2] = 1264 / 25 := by
  have hmin : min ((632 : ℚ) / 625 * 50) 100 = 1264 / 25 := by
    rw [min_eq_left (by norm_num)]
    norm_num
  have hr : round2 ((1264 : ℚ) / 25) = 1264 / 25 := by
    rw [round2_eq_down (z := 5056) (by norm_num) (by norm_num)]
    norm_num
  unfold calculatePatternRisk
  rw [if_neg (by simp)]
  norm_num [c5p1, c5p2, riskWeight, hmin, hr]

/-- Counterparty factor of the boundary counterexample: 0 (the single
transaction touches no known high-risk address). -/
lemma c5_counterparty_eval : calculateCounterpartyRisk [c5OldTx] = 0 := by
  have hhr : highRiskTxCount [c5OldTx] = 0 := by decide
  have hr : round2 (0 : ℚ) = 0 := by
    rw [round2_eq_down (z := 0) (by norm_num) (by norm_num)]
    norm_num
  unfold calculateCounterpartyRisk
  rw [if_neg (by simp)]
  norm_num [hhr, hr]

/-- Volume factor of the boundary counterexample: total volume 0.5 ≤ 1
scores the base 10. -/
lemma c5_volume_eval : calculateVolumeRisk [c5OldTx] = 10 := by
  have hr : round2 (10 : ℚ) = 10 := by
    rw [round2_eq_down (z := 1000) (by norm_num) (by norm_num)]
    norm_num
  norm_num [calculateVolumeRisk, c5OldTx, mkTx, hr]

/-- Age factor of the boundary counterexample: a 400-day-old address,
inactive for its whole lifespan, scores `min(10 × 1.3, 100) = 13`. -/
lemma c5_age_eval : calculateAgeRisk c5Now [c5OldTx] = 13 := by
  have hdays : Int.fdiv (c5Now - 0) 86400 = 400 := by decide
  have hmin13 : min ((10 : ℚ) * (13 / 10)) 100 = 13 := by
    rw [min_eq_left (by norm_num)]
    norm_num
  have hr : round2 (13 : ℚ) = 13 := by
    rw [round2_eq_down (z := 1300) (by norm_num) (by norm_num)]
    norm_num
  have hne : ([c5OldTx] : List Tx) ≠ [] := by simp
  unfold calculateAgeRisk
  rw [if_neg hne]
  simp only [c5OldTx, mkTx, List.map_cons, List.map_nil, intMinOf, intMaxOf,
    List.foldl_nil, hdays]
  norm_num [hmin13, hr]

/-- The weighted total of the boundary counterexample:
`50.56×0.35 + 0 + 0 + 10×0.1 + 13×0.1 = 19.996`. -/
lemma c5_total_eval : totalScore c5Now [c5OldTx] [c5p1, c5p2] [] = 4999 / 250 := by
  rw [totalScore, c5_pattern_eval, c5_counterparty_eval, c5_volume_eval, c5_age_eval]
  norm_num [calculateAnomalyRisk]

/-- C5 counterexample: at a concrete input the returned `risk_score` is
exactly the boundary value 20 (19.996 rounded to two decimals) while
`risk_level` is `"minimal"`, not the `"low"` the claim requires for a
score of exactly 20 — the level is bucketed from the unrounded total. -/
theorem c5_boundary_counterexample :
    (calculateRiskScore c5Now "0xabc" [c5OldTx] [c5p1, c5p2] []).risk_score = 20 ∧
    (calculateRiskScore c5Now "0xabc" [c5OldTx] [c5p1, c5p2] []).risk_level = "minimal" := by
  constructor
  · show round2 (totalScore c5Now [c5OldTx] [c5p1, c5p2] []) = 20
    rw [c5_total_eval, round2_eq_up (z := 1999) (by norm_num) (by norm_num)]
    norm_num
  · show determineRiskLevel (totalScore c5Now [c5OldTx] [c5p1, c5p2] []) = "minimal"
    rw [c5_total_eval]
    norm_num [determineRiskLevel]

/-- Witness for `c5_amended` at a concrete input. -/
theorem c5_amended_witness :
    (∀ p ∈ ([c5p1] : List PatternMatch), 0 ≤ p.confidence) ∧
    (0 ≤ (calculateRiskScore 0 "w" [] [c5p1] []).risk_score ∧
      (calculateRiskScore 0 "w" [] [c5p1] []).risk_score ≤ 100 ∧
      (calculateRiskScore 0 "w" [] [c5p1] []).risk_level =
        (if 80 ≤ totalScore 0 [] [c5p1] [] then "critical"
         else if 60 ≤ totalScore 0 [] [c5p1] [] then "high"
         else if 40 ≤ totalScore 0 [] [c5p1] [] then "medium"
         else if 20 ≤ totalScore 0 [] [c5p1] [] then "low"
         else "minimal")) :=
  ⟨fun p hp => by simp at hp; subst hp; norm_num [c5p1],
    c5_amended 0 "w" [] [c5p1] [] (fun p hp => by simp at hp; subst hp; norm_num [c5p1])⟩

/-!  ## C7: amount anomalies  -/

/-- Population variance is nonnegative. -/
lemma pvar_nonneg (l : List ℚ) : 0 ≤ pvar l := by
  unfold pvar
  refine div_nonneg (List.sum_nonneg fun x hx => ?_) (by positivity)
  rcases List.mem_map.mp hx with ⟨y, _, rfl⟩
  positivity

/-- The square-free embedded test `absZExceeds` agrees with the source's
z-score comparison `abs((x - mean)/pstdev) > t` over the reals, for a
nonnegative threshold and positive variance (`pstdev = sqrt pvariance`). -/
lemma absZExceeds_iff_real {x μ v t : ℚ} (ht : 0 ≤ t) (hv : 0 < v) :
    absZExceeds x μ v t ↔
      (t : ℝ) * Real.sqrt (v : ℝ) < |((x : ℚ) : ℝ) - ((μ : ℚ) : ℝ)| := by
  have hvR : (0 : ℝ) < (v : ℝ) := by exact_mod_cast hv
  have htR : (0 : ℝ) ≤ (t : ℝ) := by exact_mod_cast ht
  have hsq : Real.sqrt (v : ℝ) ^ 2 = (v : ℝ) := Real.sq_sqrt hvR.le
  have hsnn : (0 : ℝ) ≤ Real.sqrt (v : ℝ) := Real.sqrt_nonneg _
  have habs : |((x : ℚ) : ℝ) - ((μ : ℚ) : ℝ)| ^ 2 = (((x : ℚ) : ℝ) - ((μ : ℚ) : ℝ)) ^ 2 :=
    sq_abs _
  have hann : (0 : ℝ) ≤ |((x : ℚ) : ℝ) - ((μ : ℚ) : ℝ)| := abs_nonneg _
  constructor
  · intro h
    have hR : (t : ℝ) ^ 2 * (v : ℝ) < (((x : ℚ) : ℝ) - ((μ : ℚ) : ℝ)) ^ 2 := by
      have := h
      unfold absZExceeds at this
      exact_mod_cast this
    by_contra hcon
    push_neg at hcon
    nlinarith
  · intro h
    unfold absZExceeds
    have key := mul_self_lt_mul_self (mul_nonneg htR hsnn) h
    have hR : (t : ℝ) ^ 2 * (v : ℝ) < (((x : ℚ) : ℝ) - ((μ : ℚ) : ℝ)) ^ 2 := by
      nlinarith [key]
    exact_mod_cast hR

/-- C7: the amount-anomaly test returns `[]` whenever fewer than 10
transactions are supplied, and whenever the population variance of all
amounts is zero; otherwise it flags exactly the transactions whose
z-score `(amount - mean)/pstdev` exceeds the threshold in absolute value
(default 3.0), with severity "high" iff `|z| > 4.0` and "medium"
otherwise — the embedded comparisons agree with the real-valued z-score
comparisons by `absZExceeds_iff_real`. -/
theorem c7_amount_anomalies (t : ℚ) (ht : 0 ≤ t) (txs : List Tx) (addr : String) :
    (txs.length < 10 → detectAmountAnomalies t txs addr = []) ∧
    (pvar (txs.map (fun tx => tx.value)) = 0 → detectAmountAnomalies t txs addr = []) ∧
    (10 ≤ txs.length → pvar (txs.map (fun tx => tx.value)) ≠ 0 →
      0 < pvar (txs.map (fun tx => tx.value)) ∧
      detectAmountAnomalies t txs addr =
        txs.filterMap (fun tx =>
          if absZExceeds tx.value (listMean (txs.map (fun tx => tx.value)))
              (pvar (txs.map (fun tx => tx.value))) t then
            some { atype := "amount_anomaly",
                   severity :=
                     if absZExceeds tx.value (listMean (txs.map (fun tx => tx.value)))
                         (pvar (txs.map (fun tx => tx.value))) 4
                     then "high" else "medium",
                   ref := tx.hash, metric := tx.value }
          else none) ∧
      (∀ x : ℚ,
        absZExceeds x (listMean (txs.map (fun tx => tx.value)))
            (pvar (txs.map (fun tx => tx.value))) t ↔
          (t : ℝ) * Real.sqrt ((pvar (txs.map (fun tx => tx.value)) : ℚ) : ℝ) <
            |((x : ℚ) : ℝ) - ((listMean (txs.map (fun tx => tx.value)) : ℚ) : ℝ)|) ∧
      (∀ x : ℚ,
        absZExceeds x (listMean (txs.map (fun tx => tx.value)))
            (pvar (txs.map (fun tx => tx.value))) 4 ↔
          (4 : ℝ) * Real.sqrt ((pvar (txs.map (fun tx => tx.value)) : ℚ) : ℝ) <
            |((x : ℚ) : ℝ) - ((listMean (txs.map (fun tx => tx.value)) : ℚ) : ℝ)|)) := by
  refine ⟨?_, ?_, ?_⟩
  · intro hlen
    unfold detectAmountAnomalies
    simp only []
    rw [if_pos (by simpa using hlen)]
  · intro hv
    unfold detectAmountAnomalies
    simp only []
    split_ifs <;> rfl
  · intro hlen hv
    have hvpos : 0 < pvar (txs.map (fun tx => tx.value)) :=
      lt_of_le_of_ne (pvar_nonneg _) (Ne.symm hv)
    refine ⟨hvpos, ?_, fun x => absZExceeds_iff_real ht hvpos,
      fun x => absZExceeds_iff_real (by norm_num) hvpos⟩
    unfold detectAmountAnomalies
    simp only []
    rw [if_neg (by simpa using not_lt.mpr hlen), if_neg hv]

/-- Witness for `c7_amount_anomalies`: threshold 3 on the eleven-element
example (ten amounts of 1, one of 100). -/
theorem c7_amount_anomalies_witness :
    (amtExampleTxs.length < 10 → detectAmountAnomalies 3 amtExampleTxs "x" = []) ∧
    (pvar (amtExampleTxs.map (fun tx => tx.value)) = 0 →
      detectAmountAnomalies 3 amtExampleTxs "x" = []) ∧
    (10 ≤ amtExampleTxs.length → pvar (amtExampleTxs.map (fun tx => tx.value)) ≠ 0 →
      0 < pvar (amtExampleTxs.map (fun tx => tx.value)) ∧
      detectAmountAnomalies 3 amtExampleTxs "x" =
        amtExampleTxs.filterMap (fun tx =>
          if absZExceeds tx.value (listMean (amtExampleTxs.map (fun tx => tx.value)))
              (pvar (amtExampleTxs.map (fun tx => tx.value))) 3 then
            some { atype := "amount_anomaly",
                   severity :=
                     if absZExceeds tx.value (listMean (amtExampleTxs.map (fun tx => tx.value)))
                         (pvar (amtExampleTxs.map (fun tx => tx.value))) 4
                     then "high" else "medium",
                   ref := tx.hash, metric := tx.value }
          else none) ∧
      (∀ x : ℚ,
        absZExceeds x (listMean (amtExampleTxs.map (fun tx => tx.value)))
            (pvar (amtExampleTxs.map (fun tx => tx.value))) 3 ↔
          (3 : ℝ) * Real.sqrt ((pvar (amtExampleTxs.map (fun tx => tx.value)) : ℚ) : ℝ) <
            |((x : ℚ) : ℝ) -
              ((listMean (amtExampleTxs.map (fun tx => tx.value)) : ℚ) : ℝ)|) ∧
      (∀ x : ℚ,
        absZExceeds x (listMean (amtExampleTxs.map (fun tx => tx.value)))
            (pvar (amtExampleTxs.map (fun tx => tx.value))) 4 ↔
          (4 : ℝ) * Real.sqrt ((pvar (amtExampleTxs.map (fun tx => tx.value)) : ℚ) : ℝ) <
            |((x : ℚ) : ℝ) -
              ((listMean (amtExampleTxs.map (fun tx => tx.value)) : ℚ) : ℝ)|)) :=
  c7_amount_anomalies 3 (by norm_num) amtExampleTxs "x"
